import Mathlib

/-!
Verification development for the traditional horary judgment engine
(`backend/horary_engine.py`).  The engine's data model and the judgment
pipeline are embedded shallowly: angles, orbs, speeds and confidence values
are exact rationals, Python dictionaries become total functions together
with an explicit iteration-order list, and the process-wide YAML
configuration becomes an explicit record passed to every function.
Helpers imported from `_horary_math` (absent from the sources) are
modelled from the specification and marked as such in their doc comments.
-/

namespace Horary

/-- The seven traditional planets plus the two chart points (`Planet`). -/
inductive Planet where
  | sun | moon | mercury | venus | mars | jupiter | saturn | asc | mc
deriving DecidableEq, Repr

/-- The five major (Ptolemaic) aspects (`Aspect`). -/
inductive Aspect where
  | conjunction | sextile | square | trine | opposition
deriving DecidableEq, Repr

/-- Exact angular separation of an aspect (`Aspect.degrees`). -/
def Aspect.degrees : Aspect → ℚ
  | .conjunction => 0
  | .sextile => 60
  | .square => 90
  | .trine => 120
  | .opposition => 180

/-- Display name of an aspect (`Aspect.display_name`). -/
def Aspect.display_name : Aspect → String
  | .conjunction => "Conjunction"
  | .sextile => "Sextile"
  | .square => "Square"
  | .trine => "Trine"
  | .opposition => "Opposition"

/-- Enumeration order of `class Aspect(Enum)`, used by iteration (`for aspect_type in Aspect`). -/
def aspectList : List Aspect :=
  [.conjunction, .sextile, .square, .trine, .opposition]

/-- The twelve zodiac signs (`Sign`). -/
inductive Sign where
  | aries | taurus | gemini | cancer | leo | virgo
  | libra | scorpio | sagittarius | capricorn | aquarius | pisces
deriving DecidableEq, Repr

/-- Start longitude of a sign (`Sign.start_degree`). -/
def Sign.start_degree : Sign → ℚ
  | .aries => 0 | .taurus => 30 | .gemini => 60 | .cancer => 90
  | .leo => 120 | .virgo => 150 | .libra => 180 | .scorpio => 210
  | .sagittarius => 240 | .capricorn => 270 | .aquarius => 300 | .pisces => 330

/-- Ruling planet of a sign (`Sign.ruler`). -/
def Sign.ruler : Sign → Planet
  | .aries => .mars | .taurus => .venus | .gemini => .mercury | .cancer => .moon
  | .leo => .sun | .virgo => .mercury | .libra => .venus | .scorpio => .mars
  | .sagittarius => .jupiter | .capricorn => .saturn | .aquarius => .saturn
  | .pisces => .jupiter

/-- Sign name string (`Sign.sign_name`). -/
def Sign.sign_name : Sign → String
  | .aries => "Aries" | .taurus => "Taurus" | .gemini => "Gemini"
  | .cancer => "Cancer" | .leo => "Leo" | .virgo => "Virgo"
  | .libra => "Libra" | .scorpio => "Scorpio" | .sagittarius => "Sagittarius"
  | .capricorn => "Capricorn" | .aquarius => "Aquarius" | .pisces => "Pisces"

/-- Solar proximity conditions (`SolarCondition`). -/
inductive SolarCondition where
  | cazimi | combustion | underBeams | free
deriving DecidableEq, Repr

/-- Planet name string (`Planet.value`). -/
def Planet.value : Planet → String
  | .sun => "Sun" | .moon => "Moon" | .mercury => "Mercury" | .venus => "Venus"
  | .mars => "Mars" | .jupiter => "Jupiter" | .saturn => "Saturn"
  | .asc => "Ascendant" | .mc => "Midheaven"

/-- `PlanetPosition` dataclass. -/
structure PlanetPosition where
  planet : Planet
  longitude : ℚ
  latitude : ℚ
  house : ℤ
  sign : Sign
  dignity_score : ℤ
  retrograde : Bool
  speed : ℚ
deriving DecidableEq, Repr

/-- `AspectInfo` dataclass (the optional exact timestamp is omitted: it is
derived wall-clock output never read by the judgment pipeline). -/
structure AspectInfo where
  planet1 : Planet
  planet2 : Planet
  aspect : Aspect
  orb : ℚ
  applying : Bool
  degrees_to_exact : ℚ
deriving DecidableEq, Repr

/-- `LunarAspect` dataclass. -/
structure LunarAspect where
  planet : Planet
  aspect : Aspect
  orb : ℚ
  degrees_difference : ℚ
  perfection_eta_days : ℚ
  perfection_eta_description : String
  applying : Bool
deriving DecidableEq, Repr

/-- `SolarAnalysis` dataclass. -/
structure SolarAnalysis where
  planet : Planet
  distance_from_sun : ℚ
  condition : SolarCondition
  exact_cazimi : Bool := false
  traditional_exception : Bool := false
deriving DecidableEq, Repr

/-- `HoraryChart` dataclass restricted to the fields the judgment pipeline
reads.  `planets` is total over `Planet` (as the source dict is over the
seven traditional planets); `real_moon_speed` stands for the external
ephemeris call `get_real_moon_speed`. -/
structure HoraryChart where
  planets : Planet → PlanetPosition
  aspects : List AspectInfo
  house_rulers : ℤ → Option Planet
  ascendant : ℚ
  solar_analyses : Planet → SolarAnalysis
  moon_last_aspect : Option LunarAspect := none
  moon_next_aspect : Option LunarAspect := none
  real_moon_speed : ℚ := 13

/-- Iteration order of `chart.planets` as built by `calculate_chart`
(insertion order of `self.planets_swe`). -/
def chartPlanetOrder : List Planet :=
  [.sun, .moon, .mercury, .venus, .mars, .jupiter, .saturn]

/-- `cfg().orbs` section of the YAML configuration. -/
structure OrbsCfg where
  conjunction : ℚ := 8
  sextile : ℚ := 6
  square : ℚ := 7
  trine : ℚ := 8
  opposition : ℚ := 8
  sun_orb_bonus : ℚ := 2
  moon_orb_bonus : ℚ := 2
  cazimi_orb_arcmin : ℚ := 17
  combustion_orb : ℚ := 17/2
  under_beams_orb : ℚ := 15
  void_orb_deg : ℚ := 6
deriving DecidableEq, Repr

/-- `cfg().timing` section. -/
structure TimingCfg where
  timing_precision_days : ℚ := 1/10
  max_future_days : ℚ := 365
  stationary_speed_threshold : ℚ := 1/10
deriving DecidableEq, Repr

/-- `cfg().confidence.lunar_confidence_caps`. -/
structure LunarCapsCfg where
  favorable : ℚ := 75
  unfavorable : ℚ := 70
  neutral : ℚ := 60
deriving DecidableEq, Repr

/-- `cfg().confidence.solar`. -/
structure SolarConfCfg where
  cazimi_bonus : ℤ := 15
  exact_cazimi_bonus : ℤ := 20
  combustion_penalty : ℤ := 10
  under_beams_penalty : ℤ := 5
deriving DecidableEq, Repr

/-- `cfg().confidence.perfection`. -/
structure PerfectionCfg where
  direct_basic : ℚ := 75
  direct_with_mutual_rulership : ℚ := 95
  direct_with_mutual_exaltation : ℚ := 85
  translation_of_light : ℚ := 75
  collection_of_light : ℚ := 70
  reception_only : ℚ := 65
deriving DecidableEq, Repr

/-- `cfg().confidence.denial`. -/
structure DenialCfg where
  prohibition : ℚ := 80
  frustration_retrograde : ℚ := 70
deriving DecidableEq, Repr

/-- `cfg().confidence.reception`. -/
structure ReceptionCfg where
  mutual_exaltation_bonus : ℚ := 15
deriving DecidableEq, Repr

/-- `cfg().confidence` section. -/
structure ConfidenceCfg where
  base_confidence : ℚ := 50
  solar : SolarConfCfg := {}
  perfection : PerfectionCfg := {}
  denial : DenialCfg := {}
  reception : ReceptionCfg := {}
  lunar_confidence_caps : LunarCapsCfg := {}
deriving DecidableEq, Repr

/-- `cfg().radicality.via_combusta`. -/
structure ViaCombustaCfg where
  libra_start : ℚ := 15
  scorpio_full : Bool := true
  capricorn_start : ℚ := 15
deriving DecidableEq, Repr

/-- `cfg().radicality` section. -/
structure RadicalityCfg where
  asc_too_early : ℚ := 3
  asc_too_late : ℚ := 27
  saturn_7th_enabled : Bool := true
  via_combusta_enabled : Bool := true
  via_combusta : ViaCombustaCfg := {}
deriving DecidableEq, Repr

/-- `cfg().dignity` section. -/
structure DignityCfg where
  rulership : ℤ := 5
  exaltation : ℤ := 4
  detriment : ℤ := -5
  fall : ℤ := -4
  joy : ℤ := 2
  angular : ℤ := 2
  succedent : ℤ := 1
  cadent : ℤ := -1
deriving DecidableEq, Repr

/-- `cfg().moon.void_exceptions`. -/
structure VoidExceptionsCfg where
  cancer : Bool := true
  sagittarius : Bool := true
  taurus : Bool := true
deriving DecidableEq, Repr

/-- `cfg().moon.phase_bonus` (eight configured bands). -/
structure PhaseBonusCfg where
  new_moon : ℤ := 0
  waxing_crescent : ℤ := 1
  first_quarter : ℤ := 2
  waxing_gibbous : ℤ := 3
  full_moon : ℤ := 4
  waning_gibbous : ℤ := 2
  last_quarter : ℤ := 1
  waning_crescent : ℤ := 0
deriving DecidableEq, Repr

/-- `cfg().moon.speed_bonus` (five speed bands). -/
structure SpeedBonusCfg where
  very_slow : ℤ := -2
  slow : ℤ := -1
  average : ℤ := 0
  fast : ℤ := 1
  very_fast : ℤ := 2
deriving DecidableEq, Repr

/-- `cfg().moon.angularity_bonus`. -/
structure AngularityBonusCfg where
  angular : ℤ := 2
  succedent : ℤ := 1
  cadent : ℤ := -1
deriving DecidableEq, Repr

/-- `cfg().moon.translation`. -/
structure TranslationCfg where
  require_speed_advantage : Bool := false
  require_proper_sequence : Bool := true
deriving DecidableEq, Repr

/-- `cfg().moon.collection`. -/
structure CollectionCfg where
  require_collector_dignity : Bool := true
  minimum_dignity_score : ℤ := 0
deriving DecidableEq, Repr

/-- `cfg().moon` section. -/
structure MoonCfg where
  void_rule : String := "by_sign"
  void_exceptions : VoidExceptionsCfg := {}
  phase_bonus : PhaseBonusCfg := {}
  speed_bonus : SpeedBonusCfg := {}
  angularity_bonus : AngularityBonusCfg := {}
  translation : TranslationCfg := {}
  collection : CollectionCfg := {}
deriving DecidableEq, Repr

/-- `cfg().retrograde`. -/
structure RetrogradeCfg where
  automatic_denial : Bool := false
deriving DecidableEq, Repr

/-- The full configuration snapshot `cfg()` (fields the pipeline reads). -/
structure HoraryConfig where
  orbs : OrbsCfg := {}
  timing : TimingCfg := {}
  confidence : ConfidenceCfg := {}
  radicality : RadicalityCfg := {}
  dignity : DignityCfg := {}
  moon : MoonCfg := {}
  retrograde : RetrogradeCfg := {}
deriving DecidableEq, Repr

/-- Configured maximum orb per aspect (`Aspect.orb` property reading `cfg().orbs`). -/
def aspectOrb (c : HoraryConfig) : Aspect → ℚ
  | .conjunction => c.orbs.conjunction
  | .sextile => c.orbs.sextile
  | .square => c.orbs.square
  | .trine => c.orbs.trine
  | .opposition => c.orbs.opposition

/-- Python's `%` on reals with a positive modulus: `a - b * floor (a / b)`. -/
def pymod (a b : ℚ) : ℚ := a - b * ⌊a / b⌋

/-- Absolute angular separation folded to `[0,180]`
(`angle_diff = abs(l1 - l2); if angle_diff > 180: angle_diff = 360 - angle_diff`). -/
def angSep (a b : ℚ) : ℚ :=
  let d := |a - b|
  if d > 180 then 360 - d else d

/-- Closed form of the normalization loops
`while s > 180: s -= 360` / `while s < -180: s += 360`; the ceiling counts
the loop iterations, so the value agrees with the source loops on every input. -/
def wrap180 (s : ℚ) : ℚ :=
  if s > 180 then s - 360 * ⌈(s - 180) / 360⌉
  else if s < -180 then s + 360 * ⌈(-180 - s) / 360⌉
  else s

/-- Modelled from the spec: `days_to_sign_exit` of the missing `_horary_math`
module — "the number of days until the body exits its current sign, a
closed-form function of current degree-within-sign and signed speed,
undefined/infinite if speed's sign would never cross the boundary" (a zero
speed never crosses; retrograde motion exits across the sign's start). -/
def days_to_sign_exit (longitude speed : ℚ) : Option ℚ :=
  let deg_in_sign := pymod longitude 30
  if speed > 0 then some ((30 - deg_in_sign) / speed)
  else if speed < 0 then some (deg_in_sign / (-speed))
  else none

/-- Modelled from the spec: `calculate_elongation` of the missing
`_horary_math` module — "absolute angular distance to the Sun, ≤ 180°". -/
def calculate_elongation (planet_lon sun_lon : ℚ) : ℚ :=
  angSep planet_lon sun_lon

/-- Python truthiness of an optional float (`if faster_days_to_exit and ...`):
`None` and `0.0` are falsy. -/
def pyTruthy : Option ℚ → Bool
  | none => false
  | some q => q != 0

/-- `days_to_perfect > bound` where `none` stands for `float('inf')`. -/
def infGT : Option ℚ → ℚ → Bool
  | none, _ => true
  | some v, d => v > d

/-- Python `min(targets, key=lambda t: abs(separation - t))`: first minimum
in list order. -/
def closestTargetTo (separation : ℚ) : List ℚ → ℚ
  | [] => 0
  | t :: ts => ts.foldl (fun best x => if |separation - x| < |separation - best| then x else best) t

/-- `_is_applying_enhanced`: applying test with directional sign-exit cutoff. -/
def is_applying_enhanced (c : HoraryConfig) (pos1 pos2 : PlanetPosition)
    (aspect : Aspect) : Bool :=
  let fs := if |pos1.speed| > |pos2.speed| then (pos1, pos2) else (pos2, pos1)
  let faster := fs.1
  let slower := fs.2
  let separation := wrap180 (faster.longitude - slower.longitude)
  let target := aspect.degrees
  let targets := if target ≠ 0 ∧ target ≠ 180 then
      [target, -target, target - 360, -target + 360]
    else [target, -target]
  let closest_target := closestTargetTo separation targets
  let current_orb := |separation - closest_target|
  let days_to_perfect : Option ℚ :=
    if |faster.speed - slower.speed| > 0 then
      some (current_orb / |faster.speed - slower.speed|) else none
  let faster_days_to_exit := days_to_sign_exit faster.longitude faster.speed
  let slower_days_to_exit := days_to_sign_exit slower.longitude slower.speed
  if pyTruthy faster_days_to_exit ∧ infGT days_to_perfect (faster_days_to_exit.getD 0) then
    false
  else if pyTruthy slower_days_to_exit ∧ infGT days_to_perfect (slower_days_to_exit.getD 0) then
    false
  else
    let time_increment := c.timing.timing_precision_days
    let future_separation := wrap180 (separation + (faster.speed - slower.speed) * time_increment)
    let future_orb := |future_separation - closest_target|
    future_orb < current_orb

/-- `_calculate_enhanced_degrees_to_exact` (the degrees component; the
optional wall-clock timestamp is unused by the judgment pipeline). -/
def degrees_to_exact_of (pos1 pos2 : PlanetPosition) (aspect : Aspect) : ℚ :=
  let separation := angSep pos1.longitude pos2.longitude
  let orb_from_exact := |separation - aspect.degrees|
  if orb_from_exact < 1/10 then 1/10 else orb_from_exact

/-- Unordered pairs in the source's nested-loop order
(`for i, p1 in enumerate(list): for p2 in list[i+1:]`). -/
def pairsOf : List α → List (α × α)
  | [] => []
  | x :: xs => xs.map (fun y => (x, y)) ++ pairsOf xs

/-- One pair's candidate relation inside `_calculate_enhanced_aspects`:
first aspect kind (enumeration order) whose orb-diff fits the configured
orb plus luminary bonuses, else none. -/
def pairAspect (c : HoraryConfig) (planet1 planet2 : Planet)
    (pos1 pos2 : PlanetPosition) : Option AspectInfo :=
  let angle_diff := angSep pos1.longitude pos2.longitude
  let hit := aspectList.find? fun aspect_type =>
    let max_orb := aspectOrb c aspect_type
      + (if planet1 = .sun ∨ planet2 = .sun then c.orbs.sun_orb_bonus else 0)
      + (if planet1 = .moon ∨ planet2 = .moon then c.orbs.moon_orb_bonus else 0)
    |angle_diff - aspect_type.degrees| ≤ max_orb
  hit.map fun aspect_type =>
    { planet1 := planet1, planet2 := planet2, aspect := aspect_type,
      orb := |angle_diff - aspect_type.degrees|,
      applying := is_applying_enhanced c pos1 pos2 aspect_type,
      degrees_to_exact := degrees_to_exact_of pos1 pos2 aspect_type }

/-- `_calculate_enhanced_aspects` over the chart's seven planets. -/
def calculate_enhanced_aspects (c : HoraryConfig)
    (planets : Planet → PlanetPosition) : List AspectInfo :=
  (pairsOf chartPlanetOrder).filterMap fun pq =>
    pairAspect c pq.1 pq.2 (planets pq.1) (planets pq.2)

/-- Python `int()` truncation toward zero on a rational. -/
def pyint (q : ℚ) : ℤ := if 0 ≤ q then ⌊q⌋ else -⌊-q⌋

/-- Stand-in for Python's `f"{x:.1f}"` rendering (round to one decimal).
The judgment logic never branches on a rendered number, so only the fixed
words of the surrounding messages matter for the verified properties. -/
def fmt_f1 (q : ℚ) : String :=
  let n : ℤ := ⌊q * 10 + 1/2⌋
  let a : ℤ := n / 10
  let b : ℕ := (n % 10).natAbs
  s!"{a}.{b}"

/-- Stand-in for Python's `f"{n:+d}"` rendering of an integer with sign. -/
def fmt_signed (n : ℤ) : String :=
  if 0 ≤ n then s!"+{n}" else s!"{n}"

/-- Traditional exaltations table (`self.exaltations`). -/
def exaltation : Planet → Option Sign
  | .sun => some .aries
  | .moon => some .taurus
  | .mercury => some .virgo
  | .venus => some .pisces
  | .mars => some .capricorn
  | .jupiter => some .cancer
  | .saturn => some .libra
  | _ => none

/-- `_check_enhanced_combustion_exception`.  The Sun's altitude at civil
twilight comes from the external ephemeris
(`sun_altitude_at_civil_twilight`), so it is passed in as a value. -/
def check_enhanced_combustion_exception (planet : Planet)
    (planet_pos sun_pos : PlanetPosition) (sun_altitude : ℚ) : Bool :=
  let elongation := calculate_elongation planet_pos.longitude sun_pos.longitude
  if elongation < 10 then false
  else if planet = .mercury then
    if elongation ≥ 10 ∧ (planet_pos.sign = .gemini ∨ planet_pos.sign = .virgo) then true
    else if elongation ≥ 18 then true
    else false
  else if planet = .venus then
    if elongation ≥ 10 then
      if sun_altitude ≤ -8 then true
      else if elongation ≥ 40 then true
      else false
    else false
  else false

/-- `_analyze_enhanced_solar_condition`. -/
def analyze_enhanced_solar_condition (c : HoraryConfig) (planet : Planet)
    (planet_pos sun_pos : PlanetPosition) (sun_altitude : ℚ) : SolarAnalysis :=
  if planet = .sun then
    { planet := planet, distance_from_sun := 0, condition := .free, exact_cazimi := false }
  else
    let elongation := calculate_elongation planet_pos.longitude sun_pos.longitude
    let cazimi_orb := c.orbs.cazimi_orb_arcmin / 60
    let combustion_orb := c.orbs.combustion_orb
    let under_beams_orb := c.orbs.under_beams_orb
    let traditional_exception :=
      if planet = .mercury ∨ planet = .venus then
        check_enhanced_combustion_exception planet planet_pos sun_pos sun_altitude
      else false
    if elongation ≤ cazimi_orb then
      { planet := planet, distance_from_sun := elongation, condition := .cazimi,
        exact_cazimi := elongation ≤ 3/60, traditional_exception := false }
    else if elongation ≤ combustion_orb then
      if traditional_exception then
        { planet := planet, distance_from_sun := elongation, condition := .free,
          traditional_exception := true }
      else
        { planet := planet, distance_from_sun := elongation, condition := .combustion,
          traditional_exception := false }
    else if elongation ≤ under_beams_orb then
      if traditional_exception then
        { planet := planet, distance_from_sun := elongation, condition := .free,
          traditional_exception := true }
      else
        { planet := planet, distance_from_sun := elongation, condition := .underBeams,
          traditional_exception := false }
    else
      { planet := planet, distance_from_sun := elongation, condition := .free,
        traditional_exception := false }

/-- Return shape of `_find_applying_aspect`. -/
structure FoundAspect where
  aspect : Aspect
  orb : ℚ
  degrees_to_exact : ℚ
deriving DecidableEq, Repr

/-- `_find_applying_aspect`: first listed applying aspect joining the two planets. -/
def find_applying_aspect (chart : HoraryChart) (planet1 planet2 : Planet) :
    Option FoundAspect :=
  (chart.aspects.find? fun a =>
      ((a.planet1 = planet1 ∧ a.planet2 = planet2) ∨
       (a.planet1 = planet2 ∧ a.planet2 = planet1)) ∧ a.applying).map
    fun a => { aspect := a.aspect, orb := a.orb, degrees_to_exact := a.degrees_to_exact }

/-- `_enhanced_perfects_in_sign`. -/
def enhanced_perfects_in_sign (pos1 pos2 : PlanetPosition)
    (aspect_info : FoundAspect) : Bool :=
  let days_to_exit_1 := days_to_sign_exit pos1.longitude pos1.speed
  let days_to_exit_2 := days_to_sign_exit pos2.longitude pos2.speed
  let relative_speed := |pos1.speed - pos2.speed|
  if relative_speed = 0 then false
  else
    let days_to_perfect := aspect_info.degrees_to_exact / relative_speed
    if pyTruthy days_to_exit_1 ∧ days_to_perfect > days_to_exit_1.getD 0 then false
    else if pyTruthy days_to_exit_2 ∧ days_to_perfect > days_to_exit_2.getD 0 then false
    else true

/-- `_check_enhanced_mutual_reception` (returns the source's string codes). -/
def check_enhanced_mutual_reception (chart : HoraryChart)
    (planet1 planet2 : Planet) : String :=
  let pos1 := chart.planets planet1
  let pos2 := chart.planets planet2
  if pos1.sign.ruler = planet2 ∧ pos2.sign.ruler = planet1 then "mutual_rulership"
  else if exaltation planet1 = some pos2.sign ∧ exaltation planet2 = some pos1.sign then
    "mutual_exaltation"
  else if (pos1.sign.ruler = planet2 ∧ exaltation planet2 = some pos1.sign) ∨
          (pos2.sign.ruler = planet1 ∧ exaltation planet1 = some pos2.sign) then
    "mixed_reception"
  else "none"

/-- `_is_aspect_favorable`. -/
def is_aspect_favorable (aspect : Aspect) (reception : String) : Bool :=
  let base_favorable := aspect = .conjunction ∨ aspect = .sextile ∨ aspect = .trine
  if reception = "mutual_rulership" ∨ reception = "mutual_exaltation" ∨
     reception = "mixed_reception" then true
  else base_favorable

/-- Modelled from the spec: `check_aspect_separation_order` of the missing
`_horary_math` module.  The spec calls separation the "symmetric inverse of
the applying test": the pair is separating when the orb from the aspect's
exact angle grows as both bodies move forward a small time step. -/
def check_aspect_separation_order (lon1 speed1 lon2 speed2 aspect_degrees : ℚ) :
    Bool :=
  let current_orb := |angSep lon1 lon2 - aspect_degrees|
  let future_orb :=
    |angSep (pymod (lon1 + speed1 / 10) 360) (pymod (lon2 + speed2 / 10) 360) -
      aspect_degrees|
  future_orb > current_orb

/-- Return shape of `_check_enhanced_translation_of_light`. -/
structure TranslationResult where
  found : Bool
  translator : Option Planet := none
  favorable : Bool := false
  sequence : String := ""
deriving DecidableEq, Repr

/-- One iteration of the translation loop body (planet `p` as candidate
translator); `none` means the loop continues. -/
def translation_candidate (c : HoraryConfig) (chart : HoraryChart)
    (querent quesited : Planet) (p : Planet) : Option (Planet × String) :=
  if p = querent ∨ p = quesited then none
  else
    let pos := chart.planets p
    match find_applying_aspect chart p querent, find_applying_aspect chart p quesited with
    | some aspect_to_querent, some aspect_to_quesited =>
      if c.moon.translation.require_proper_sequence then
        let querent_separation := check_aspect_separation_order
          (chart.planets querent).longitude (chart.planets querent).speed
          pos.longitude pos.speed aspect_to_querent.aspect.degrees
        let quesited_separation := check_aspect_separation_order
          (chart.planets quesited).longitude (chart.planets quesited).speed
          pos.longitude pos.speed aspect_to_quesited.aspect.degrees
        if querent_separation ∧
            aspect_to_quesited.degrees_to_exact < aspect_to_querent.degrees_to_exact then
          some (p, s!"separating from {querent.value}, applying to {quesited.value}")
        else if quesited_separation ∧
            aspect_to_querent.degrees_to_exact < aspect_to_quesited.degrees_to_exact then
          some (p, s!"separating from {quesited.value}, applying to {querent.value}")
        else none
      else
        some (p, s!"connecting {querent.value} and {quesited.value}")
    | _, _ => none

/-- `_check_enhanced_translation_of_light`: the whole search runs only when
the configured speed-advantage prerequisite is removed; the first candidate
in planet iteration order wins. -/
def check_enhanced_translation_of_light (c : HoraryConfig) (chart : HoraryChart)
    (querent quesited : Planet) : TranslationResult :=
  if ¬ c.moon.translation.require_speed_advantage then
    match chartPlanetOrder.findSome? (translation_candidate c chart querent quesited) with
    | some (p, seq) =>
      { found := true, translator := some p, favorable := true, sequence := seq }
    | none => { found := false }
  else { found := false }

/-- Return shape of `_check_enhanced_collection_of_light`. -/
structure CollectionResult where
  found : Bool
  collector : Option Planet := none
  favorable : Bool := false
  strength : ℤ := 0
deriving DecidableEq, Repr

/-- One iteration of the collection loop body; `none` means continue. -/
def collection_candidate (c : HoraryConfig) (chart : HoraryChart)
    (querent quesited : Planet) (p : Planet) : Option (Planet × ℤ) :=
  if p = querent ∨ p = quesited then none
  else
    let pos := chart.planets p
    match find_applying_aspect chart querent p, find_applying_aspect chart quesited p with
    | some aspects_from_querent, some aspects_from_quesited =>
      if c.moon.collection.require_collector_dignity ∧
          pos.dignity_score < c.moon.collection.minimum_dignity_score then none
      else
        let querent_pos := chart.planets querent
        let quesited_pos := chart.planets quesited
        let querent_days_to_sign := days_to_sign_exit querent_pos.longitude querent_pos.speed
        let quesited_days_to_sign := days_to_sign_exit quesited_pos.longitude quesited_pos.speed
        let max_collection_days := max
          (if |querent_pos.speed - pos.speed| > 0 then
             aspects_from_querent.degrees_to_exact / |querent_pos.speed - pos.speed| else 0)
          (if |quesited_pos.speed - pos.speed| > 0 then
             aspects_from_quesited.degrees_to_exact / |quesited_pos.speed - pos.speed| else 0)
        let valid_collection :=
          ¬ (pyTruthy querent_days_to_sign ∧
              max_collection_days > querent_days_to_sign.getD 0) ∧
          ¬ (pyTruthy quesited_days_to_sign ∧
              max_collection_days > quesited_days_to_sign.getD 0)
        if valid_collection then some (p, pos.dignity_score) else none
    | _, _ => none

/-- `_check_enhanced_collection_of_light`. -/
def check_enhanced_collection_of_light (c : HoraryConfig) (chart : HoraryChart)
    (querent quesited : Planet) : CollectionResult :=
  match chartPlanetOrder.findSome? (collection_candidate c chart querent quesited) with
  | some (p, strength) =>
    { found := true, collector := some p, favorable := true, strength := strength }
  | none => { found := false }

/-- Return shape of `_check_enhanced_perfection`. -/
structure PerfectionResult where
  perfects : Bool
  type : String := ""
  favorable : Bool := false
  confidence : ℚ := 0
  reason : String := ""
  reception : String := "none"
  aspect : Option FoundAspect := none
  translator : Option Planet := none
  collector : Option Planet := none
deriving DecidableEq, Repr

/-- The direct-perfection stage of `_check_enhanced_perfection`
(`if direct_aspect: ... if perfects_in_sign: return ...`); `none` means
fall through to translation. -/
def direct_perfection (c : HoraryConfig) (chart : HoraryChart)
    (querent quesited : Planet) (exaltation_confidence_boost : ℚ) :
    Option PerfectionResult :=
  let querent_pos := chart.planets querent
  let quesited_pos := chart.planets quesited
  match find_applying_aspect chart querent quesited with
    | none => none
    | some direct_aspect =>
      if enhanced_perfects_in_sign querent_pos quesited_pos direct_aspect then
        let reception := check_enhanced_mutual_reception chart querent quesited
        if reception = "mutual_rulership" then
          some { perfects := true, type := "direct", favorable := true,
                 confidence := c.confidence.perfection.direct_with_mutual_rulership,
                 reason := direct_aspect.aspect.display_name ++
                   " with mutual rulership - unconditional perfection",
                 reception := reception, aspect := some direct_aspect }
        else if reception = "mutual_exaltation" then
          let base_confidence := c.confidence.perfection.direct_with_mutual_exaltation
          let boosted_confidence := min 100 (base_confidence + exaltation_confidence_boost)
          some { perfects := true, type := "direct", favorable := true,
                 confidence := (pyint boosted_confidence : ℚ),
                 reason := direct_aspect.aspect.display_name ++
                   s!" with mutual exaltation (+{fmt_f1 exaltation_confidence_boost}% confidence)",
                 reception := reception, aspect := some direct_aspect }
        else
          let favorable := is_aspect_favorable direct_aspect.aspect reception
          some { perfects := true, type := "direct", favorable := favorable,
                 confidence := c.confidence.perfection.direct_basic,
                 reason := direct_aspect.aspect.display_name ++ " between significators" ++
                   (if reception ≠ "none" then " with " ++ reception else ""),
                 reception := reception, aspect := some direct_aspect }
      else none

/-- `_check_enhanced_perfection`: direct aspect, then translation, then
collection, then reception-only, first match wins. -/
def check_enhanced_perfection (c : HoraryConfig) (chart : HoraryChart)
    (querent quesited : Planet) (exaltation_confidence_boost : ℚ) :
    PerfectionResult :=
  match direct_perfection c chart querent quesited exaltation_confidence_boost with
  | some r => r
  | none =>
    let translation := check_enhanced_translation_of_light c chart querent quesited
    if translation.found then
      { perfects := true, type := "translation", favorable := translation.favorable,
        confidence := c.confidence.perfection.translation_of_light,
        reason := "Translation of light by " ++
          ((translation.translator.map Planet.value).getD "") ++ " - " ++
          translation.sequence,
        translator := translation.translator }
    else
      let collection := check_enhanced_collection_of_light c chart querent quesited
      if collection.found then
        { perfects := true, type := "collection", favorable := collection.favorable,
          confidence := c.confidence.perfection.collection_of_light,
          reason := "Collection of light by " ++
            ((collection.collector.map Planet.value).getD ""),
          collector := collection.collector }
      else
        let reception := check_enhanced_mutual_reception chart querent quesited
        if reception = "mutual_rulership" then
          { perfects := true, type := "reception", favorable := true,
            confidence := c.confidence.perfection.reception_only,
            reason := "Mutual reception by rulership - unconditional perfection",
            reception := reception }
        else if reception = "mutual_exaltation" then
          let boosted_confidence := min 100
            (c.confidence.perfection.reception_only + exaltation_confidence_boost)
          { perfects := true, type := "reception", favorable := true,
            confidence := (pyint boosted_confidence : ℚ),
            reason := s!"Mutual reception by exaltation (+{fmt_f1 exaltation_confidence_boost}% confidence)",
            reception := reception }
        else
          { perfects := false, reason := "No perfection found between significators" }

/-- Return shape of `_check_enhanced_denial_conditions`. -/
structure DenialResult where
  denied : Bool
  confidence : ℚ := 0
  reason : String := ""
deriving DecidableEq, Repr

/-- One iteration of the prohibition scan inside
`_check_enhanced_denial_conditions`; `none` means the loop continues. -/
def prohibition_check (c : HoraryConfig) (chart : HoraryChart)
    (querent quesited : Planet) (aspect : AspectInfo) : Option DenialResult :=
  if (aspect.planet1 = .saturn ∨ aspect.planet2 = .saturn) ∧ aspect.applying then
    let other_planet := if aspect.planet1 = .saturn then aspect.planet2 else aspect.planet1
    if other_planet = querent ∨ other_planet = quesited then
      match find_applying_aspect chart querent quesited with
      | some sig_aspect =>
        if aspect.degrees_to_exact < sig_aspect.degrees_to_exact then
          some { denied := true, confidence := c.confidence.denial.prohibition,
                 reason := "Prohibition by Saturn - aspects " ++ other_planet.value ++
                   " before perfection" }
        else none
      | none => none
    else none
  else none

/-- `_check_enhanced_denial_conditions`: prohibition by Saturn, then the
configurable retrograde frustration. -/
def check_enhanced_denial_conditions (c : HoraryConfig) (chart : HoraryChart)
    (querent quesited : Planet) : DenialResult :=
  let prohibition : Option DenialResult :=
    chart.aspects.findSome? (prohibition_check c chart querent quesited)
  match prohibition with
  | some r => r
  | none =>
    let querent_pos := chart.planets querent
    let quesited_pos := chart.planets quesited
    if c.retrograde.automatic_denial ∧ (querent_pos.retrograde ∨ quesited_pos.retrograde) then
      { denied := true, confidence := c.confidence.denial.frustration_retrograde,
        reason := "Frustration - " ++
          (if querent_pos.retrograde then "querent" else "quesited") ++
          " significator retrograde" }
    else { denied := false }

/-- `_moon_phase_bonus`: bonus from the configured phase bands; the code
folds the Sun–Moon elongation into `[0,180]` before banding. -/
def moon_phase_bonus (c : HoraryConfig) (chart : HoraryChart) : ℤ :=
  let moon_pos := chart.planets .moon
  let sun_pos := chart.planets .sun
  let e0 := |moon_pos.longitude - sun_pos.longitude|
  let elongation := if e0 > 180 then 360 - e0 else e0
  if 0 ≤ elongation ∧ elongation < 30 then c.moon.phase_bonus.new_moon
  else if 30 ≤ elongation ∧ elongation < 60 then c.moon.phase_bonus.waxing_crescent
  else if 60 ≤ elongation ∧ elongation < 120 then c.moon.phase_bonus.first_quarter
  else if 120 ≤ elongation ∧ elongation < 150 then c.moon.phase_bonus.waxing_gibbous
  else if 150 ≤ elongation ∧ elongation < 210 then c.moon.phase_bonus.full_moon
  else if 210 ≤ elongation ∧ elongation < 240 then c.moon.phase_bonus.waning_gibbous
  else if 240 ≤ elongation ∧ elongation < 300 then c.moon.phase_bonus.last_quarter
  else c.moon.phase_bonus.waning_crescent

/-- `_moon_speed_bonus`. -/
def moon_speed_bonus (c : HoraryConfig) (chart : HoraryChart) : ℤ :=
  let moon_speed := |(chart.planets .moon).speed|
  if moon_speed < 11 then c.moon.speed_bonus.very_slow
  else if moon_speed < 12 then c.moon.speed_bonus.slow
  else if moon_speed < 14 then c.moon.speed_bonus.average
  else if moon_speed < 15 then c.moon.speed_bonus.fast
  else c.moon.speed_bonus.very_fast

/-- `_moon_angularity_bonus`. -/
def moon_angularity_bonus (c : HoraryConfig) (chart : HoraryChart) : ℤ :=
  let moon_house := (chart.planets .moon).house
  if moon_house = 1 ∨ moon_house = 4 ∨ moon_house = 7 ∨ moon_house = 10 then
    c.moon.angularity_bonus.angular
  else if moon_house = 2 ∨ moon_house = 5 ∨ moon_house = 8 ∨ moon_house = 11 then
    c.moon.angularity_bonus.succedent
  else c.moon.angularity_bonus.cadent

/-- `_calculate_aspect_positions`: Moon longitudes inside the Moon's sign
that would complete the given aspect to the planet. -/
def calculate_aspect_positions (planet_longitude : ℚ) (aspect : Aspect)
    (moon_sign : Sign) : List ℚ :=
  let aspect_positions := [pymod (planet_longitude + aspect.degrees) 360,
                           pymod (planet_longitude - aspect.degrees) 360]
  let sign_start := moon_sign.start_degree
  let sign_end := pymod (sign_start + 30) 360
  aspect_positions.filter fun pos =>
    if sign_start < sign_end then sign_start ≤ pos ∧ pos < sign_end
    else pos ≥ sign_start ∨ pos < sign_end

/-- Return shape of the void-of-course checks. -/
structure VoidResult where
  void : Bool
  exception : Bool
  reason : String
  degrees_left_in_sign : ℚ := 0
deriving DecidableEq, Repr

/-- A future in-sign lunar aspect candidate collected by `_void_by_sign_method`. -/
structure FutureAspect where
  planet : Planet
  aspect : Aspect
  target_degree : ℚ
  degrees_to_reach : ℚ
deriving DecidableEq, Repr

/-- The `future_aspects` list of `_void_by_sign_method`, in loop order. -/
def void_future_aspects (chart : HoraryChart) : List FutureAspect :=
  let moon_pos := chart.planets .moon
  let moon_degree_in_sign := pymod moon_pos.longitude 30
  let degrees_left_in_sign := 30 - moon_degree_in_sign
  chartPlanetOrder.flatMap fun planet =>
    if planet = .moon then []
    else
      aspectList.flatMap fun aspect_type =>
        (calculate_aspect_positions (chart.planets planet).longitude aspect_type
            moon_pos.sign).filterMap fun target_position =>
          let target_degree_in_sign := pymod target_position 30
          if target_degree_in_sign > moon_degree_in_sign then
            let degrees_to_target := target_degree_in_sign - moon_degree_in_sign
            if degrees_to_target < degrees_left_in_sign then
              some { planet := planet, aspect := aspect_type,
                     target_degree := target_degree_in_sign,
                     degrees_to_reach := degrees_to_target }
            else none
          else none

/-- Python `min(list, key=...)`: first element with minimal key. -/
def minByDegreesToReach (x : FutureAspect) (xs : List FutureAspect) : FutureAspect :=
  xs.foldl (fun best y => if y.degrees_to_reach < best.degrees_to_reach then y else best) x

/-- `_void_by_sign_method`. -/
def void_by_sign_method (c : HoraryConfig) (chart : HoraryChart) : VoidResult :=
  let moon_pos := chart.planets .moon
  let moon_degree_in_sign := pymod moon_pos.longitude 30
  let degrees_left_in_sign := 30 - moon_degree_in_sign
  if |moon_pos.speed| < c.timing.stationary_speed_threshold then
    { void := false, exception := false,
      reason := "Moon stationary - cannot be void of course",
      degrees_left_in_sign := degrees_left_in_sign }
  else
    let future_aspects := void_future_aspects chart
    let void_exceptions := c.moon.void_exceptions
    let exceptions :=
      if moon_pos.sign = .cancer ∧ void_exceptions.cancer then true
      else if moon_pos.sign = .sagittarius ∧ void_exceptions.sagittarius then true
      else if moon_pos.sign = .taurus ∧ void_exceptions.taurus then true
      else false
    let is_void := future_aspects.isEmpty
    let reason :=
      match future_aspects with
      | [] => "Moon makes no more aspects before leaving " ++ moon_pos.sign.sign_name
      | x :: xs =>
        let next_aspect := minByDegreesToReach x xs
        "Moon will " ++ next_aspect.aspect.display_name.toLower ++ " " ++
          next_aspect.planet.value ++ " at " ++ fmt_f1 next_aspect.target_degree ++
          "° " ++ moon_pos.sign.sign_name
    let reason :=
      if exceptions then
        if moon_pos.sign = .cancer then reason ++ " (but in own sign - Cancer)"
        else if moon_pos.sign = .sagittarius then reason ++ " (but in joy - Sagittarius)"
        else if moon_pos.sign = .taurus then reason ++ " (but in exaltation - Taurus)"
        else reason
      else reason
    { void := is_void, exception := exceptions, reason := reason,
      degrees_left_in_sign := degrees_left_in_sign }

/-- `_void_by_orb_method`. -/
def void_by_orb_method (c : HoraryConfig) (chart : HoraryChart) : VoidResult :=
  let moon_pos := chart.planets .moon
  let void_orb := c.orbs.void_orb_deg
  let hit := chartPlanetOrder.findSome? fun planet =>
    if planet = .moon then none
    else
      let separation := angSep moon_pos.longitude (chart.planets planet).longitude
      aspectList.findSome? fun aspect_type =>
        if |separation - aspect_type.degrees| ≤ void_orb then
          some ("Moon within " ++ fmt_f1 void_orb ++ "° orb of " ++
            aspect_type.display_name ++ " to " ++ planet.value)
        else none
  match hit with
  | some reason => { void := false, exception := false, reason := reason }
  | none =>
    { void := true, exception := false,
      reason := "Moon not within " ++ fmt_f1 void_orb ++ "° of any aspect" }

/-- `_void_lilly_method`: reuses the by-sign computation, overriding the
exception flag with Lilly's sign set. -/
def void_lilly_method (c : HoraryConfig) (chart : HoraryChart) : VoidResult :=
  let moon_pos := chart.planets .moon
  let exception := moon_pos.sign = .cancer ∨ moon_pos.sign = .taurus ∨
    moon_pos.sign = .sagittarius ∨ moon_pos.sign = .pisces
  let void_result := void_by_sign_method c chart
  { void_result with
    exception := exception,
    reason := if exception then
        void_result.reason ++ " (Lilly exception: " ++ moon_pos.sign.sign_name ++ ")"
      else void_result.reason }

/-- `_is_moon_void_of_course_enhanced`: method selection by `cfg().moon.void_rule`
(unknown rule falls back to by-sign). -/
def is_moon_void_of_course_enhanced (c : HoraryConfig) (chart : HoraryChart) :
    VoidResult :=
  if c.moon.void_rule = "by_sign" then void_by_sign_method c chart
  else if c.moon.void_rule = "by_orb" then void_by_orb_method c chart
  else if c.moon.void_rule = "lilly" then void_lilly_method c chart
  else void_by_sign_method c chart

/-- Return shape of `_check_enhanced_moon_testimony`. -/
structure MoonTestimony where
  favorable : Bool
  unfavorable : Bool
  reason : String
  void_of_course : Bool := false
  timing : Option String := none
deriving DecidableEq, Repr

/-- `_check_enhanced_moon_testimony`. -/
def check_enhanced_moon_testimony (c : HoraryConfig) (chart : HoraryChart)
    (querent quesited : Planet) (ignore_void_moon : Bool) : MoonTestimony :=
  let moon_pos := chart.planets .moon
  let void_path : Option MoonTestimony :=
    if ¬ ignore_void_moon then
      let void_check := is_moon_void_of_course_enhanced c chart
      if void_check.void ∧ ¬ void_check.exception then
        some { favorable := false, unfavorable := true,
               reason := "Moon void of course - " ++ void_check.reason,
               void_of_course := true,
               timing := some "Nothing comes of the matter" }
      else none
    else
      some { favorable := false, unfavorable := false,
             reason := "Moon void of course - ignored by override",
             void_of_course := true,
             timing := some "Uncertain (void Moon overridden)" }
  match void_path with
  | some r => r
  | none =>
    let phase_bonus := moon_phase_bonus c chart
    let speed_bonus := moon_speed_bonus c chart
    let angularity_bonus := moon_angularity_bonus c chart
    let total_moon_bonus := phase_bonus + speed_bonus + angularity_bonus
    let adjusted_dignity := moon_pos.dignity_score + total_moon_bonus
    let next_path : Option MoonTestimony :=
      match chart.moon_next_aspect with
      | none => none
      | some next_aspect =>
        if next_aspect.planet = querent ∨ next_aspect.planet = quesited then
          let favorable := next_aspect.aspect = .conjunction ∨
            next_aspect.aspect = .sextile ∨ next_aspect.aspect = .trine
          some { favorable := favorable, unfavorable := ¬ favorable,
                 reason := "Moon next " ++ next_aspect.aspect.display_name ++ "s " ++
                   next_aspect.planet.value ++ " (total dignity: " ++
                   fmt_signed adjusted_dignity ++ ")",
                 timing := some next_aspect.perfection_eta_description,
                 void_of_course := false }
        else none
    match next_path with
    | some r => r
    | none =>
      if adjusted_dignity > 0 then
        { favorable := true, unfavorable := false,
          reason := "Moon well-dignified in " ++ moon_pos.sign.sign_name ++
            " (adjusted dignity: " ++ fmt_signed adjusted_dignity ++ ")",
          void_of_course := false }
      else if adjusted_dignity < -3 then
        { favorable := false, unfavorable := true,
          reason := "Moon poorly dignified in " ++ moon_pos.sign.sign_name ++
            " (adjusted dignity: " ++ fmt_signed adjusted_dignity ++ ")",
          void_of_course := false }
      else
        { favorable := false, unfavorable := false,
          reason := "Moon testimony neutral (adjusted dignity: " ++
            fmt_signed adjusted_dignity ++ ")",
          void_of_course := false }

/-- Return shape of `_check_enhanced_radicality`. -/
structure RadicalityResult where
  valid : Bool
  reason : String
deriving DecidableEq, Repr

/-- `_check_enhanced_radicality`: early/late ascendant, Saturn in the 7th,
Via Combusta. -/
def check_enhanced_radicality (c : HoraryConfig) (chart : HoraryChart)
    (ignore_saturn_7th : Bool) : RadicalityResult :=
  let asc_degree := pymod chart.ascendant 30
  if asc_degree < c.radicality.asc_too_early then
    { valid := false,
      reason := "Ascendant too early at " ++ fmt_f1 asc_degree ++
        "° - question premature or not mature" }
  else if asc_degree > c.radicality.asc_too_late then
    { valid := false,
      reason := "Ascendant too late at " ++ fmt_f1 asc_degree ++
        "° - question too late or already decided" }
  else if c.radicality.saturn_7th_enabled ∧ ¬ ignore_saturn_7th ∧
      (chart.planets .saturn).house = 7 then
    { valid := false,
      reason := "Saturn in 7th house - astrologer may err in judgment (Bonatti)" }
  else
    let moon_pos := chart.planets .moon
    let moon_degree_in_sign := pymod moon_pos.longitude 30
    let vc := c.radicality.via_combusta
    if c.radicality.via_combusta_enabled ∧
        ((moon_pos.sign = .libra ∧ moon_degree_in_sign > vc.libra_start) ∨
         (moon_pos.sign = .scorpio ∧ vc.scorpio_full) ∨
         (moon_pos.sign = .capricorn ∧ moon_degree_in_sign > vc.capricorn_start)) then
      { valid := false,
        reason := "Moon in Via Combusta (" ++ moon_pos.sign.sign_name ++ " " ++
          fmt_f1 moon_degree_in_sign ++ "°) - volatile or corrupted matter" }
    else
      { valid := true,
        reason := "Chart is radical - Ascendant at " ++ fmt_f1 asc_degree ++ "°" }

/-- Return shape of `_identify_significators`. -/
structure SignificatorsInfo where
  valid : Bool
  reason : String := ""
  querent : Planet := .sun
  quesited : Planet := .sun
  description : String := ""
deriving DecidableEq, Repr

/-- `_identify_significators` (the quesited house comes from the question
analysis or a manual override). -/
def identify_significators (chart : HoraryChart) (quesited_house : ℤ) :
    SignificatorsInfo :=
  match chart.house_rulers 1, chart.house_rulers quesited_house with
  | some querent_ruler, some quesited_ruler =>
    if querent_ruler = quesited_ruler then
      { valid := false,
        reason := querent_ruler.value ++
          " rules both querent and quesited - seek natural significators" }
    else
      { valid := true, querent := querent_ruler, quesited := quesited_ruler,
        description := "Querent: " ++ querent_ruler.value ++
          " (ruler of 1), Quesited: " ++ quesited_ruler.value ++
          " (ruler of " ++ toString quesited_house ++ ")" }
  | _, _ => { valid := false, reason := "Cannot determine house rulers" }

/-- Return shape of `_analyze_enhanced_solar_factors` (counts and summary). -/
structure SolarFactors where
  significant : Bool
  summary : String
  cazimi_count : ℕ
  combustion_count : ℕ
  under_beams_count : ℕ
deriving DecidableEq, Repr

/-- `_analyze_enhanced_solar_factors`. -/
def analyze_enhanced_solar_factors (chart : HoraryChart)
    (ignore_combustion : Bool) : SolarFactors :=
  let cazimi_planets := chartPlanetOrder.filter fun p =>
    (chart.solar_analyses p).condition = .cazimi
  let combusted_planets := chartPlanetOrder.filter fun p =>
    (chart.solar_analyses p).condition = .combustion ∧ ¬ ignore_combustion
  let under_beams_planets := chartPlanetOrder.filter fun p =>
    (chart.solar_analyses p).condition = .underBeams ∧ ¬ ignore_combustion
  let summary_parts :=
    (if ¬ cazimi_planets.isEmpty then
      ["Cazimi: " ++ String.intercalate ", " (cazimi_planets.map Planet.value)] else []) ++
    (if ¬ combusted_planets.isEmpty then
      ["Combusted: " ++ String.intercalate ", " (combusted_planets.map Planet.value)] else []) ++
    (if ¬ under_beams_planets.isEmpty then
      ["Under Beams: " ++ String.intercalate ", " (under_beams_planets.map Planet.value)] else [])
  { significant := ¬ summary_parts.isEmpty,
    summary := if summary_parts.isEmpty then "No significant solar conditions"
      else String.intercalate "; " summary_parts,
    cazimi_count := cazimi_planets.length,
    combustion_count := combusted_planets.length,
    under_beams_count := under_beams_planets.length }

/-- `_format_timing_description_enhanced`. -/
def format_timing_description_enhanced (days : ℚ) : String :=
  if days < 1/2 then "Within hours"
  else if days < 1 then "Within a day"
  else if days < 7 then s!"Within {pyint days} days"
  else if days < 30 then s!"Within {pyint (days / 7)} weeks"
  else if days < 365 then s!"Within {pyint (days / 30)} months"
  else "More than a year"

/-- `_calculate_enhanced_timing` (the real Moon speed is the chart's
ephemeris-provided value). -/
def calculate_enhanced_timing (chart : HoraryChart)
    (perfection : PerfectionResult) : String :=
  match perfection.aspect with
  | some a => format_timing_description_enhanced (a.degrees_to_exact / chart.real_moon_speed)
  | none => "Timing uncertain"

/-- Return shape of `_apply_enhanced_judgment` (the fields every path sets). -/
structure JudgmentOutput where
  result : String
  confidence : ℚ
  reasoning : List String
  timing : Option String
deriving DecidableEq, Repr

/-- Stages 4–6 of `_apply_enhanced_judgment` (perfection, denial, lunar
testimony) after significator resolution and the solar confidence
adjustment have produced the running `confidence` and `reasoning`. -/
def judgment_tail (c : HoraryConfig) (chart : HoraryChart)
    (querent_planet quesited_planet : Planet) (confidence : ℚ)
    (reasoning : List String) (ignore_void_moon : Bool)
    (exaltation_confidence_boost : ℚ) : JudgmentOutput :=
  let perfection := check_enhanced_perfection c chart querent_planet quesited_planet
    exaltation_confidence_boost
  if perfection.perfects then
    { result := if perfection.favorable then "YES" else "NO",
      confidence := min confidence perfection.confidence,
      reasoning := reasoning ++ ["Perfection: " ++ perfection.reason],
      timing := some (calculate_enhanced_timing chart perfection) }
  else
    let denial := check_enhanced_denial_conditions c chart querent_planet quesited_planet
    if denial.denied then
      { result := "NO", confidence := min confidence denial.confidence,
        reasoning := reasoning ++ ["Denial: " ++ denial.reason], timing := none }
    else
      let moon_testimony := check_enhanced_moon_testimony c chart querent_planet
        quesited_planet ignore_void_moon
      let reasoning := reasoning ++ ["Moon: " ++ moon_testimony.reason]
      if moon_testimony.favorable then
        { result := "YES",
          confidence := min confidence c.confidence.lunar_confidence_caps.favorable,
          reasoning := reasoning,
          timing := some (moon_testimony.timing.getD "Uncertain") }
      else if moon_testimony.unfavorable then
        { result := "NO",
          confidence := min confidence c.confidence.lunar_confidence_caps.unfavorable,
          reasoning := reasoning,
          timing := some (moon_testimony.timing.getD "Uncertain") }
      else
        { result := "UNCLEAR",
          confidence := min confidence c.confidence.lunar_confidence_caps.neutral,
          reasoning := reasoning,
          timing := some (moon_testimony.timing.getD "Uncertain") }

/-- `_apply_enhanced_judgment`: the sequential judgment state machine —
radicality, significators, solar adjustment, then `judgment_tail`
(perfection, denial, lunar testimony with configured confidence caps). -/
def apply_enhanced_judgment (c : HoraryConfig) (chart : HoraryChart)
    (quesited_house : ℤ)
    (ignore_radicality ignore_void_moon ignore_combustion ignore_saturn_7th : Bool)
    (exaltation_confidence_boost : ℚ) : JudgmentOutput :=
  let confidence := c.confidence.base_confidence
  let radicality := check_enhanced_radicality c chart ignore_saturn_7th
  if ¬ ignore_radicality ∧ ¬ radicality.valid then
    { result := "NOT RADICAL", confidence := 0, reasoning := [radicality.reason],
      timing := none }
  else
    let reasoning : List String :=
      if ¬ ignore_radicality then ["Radicality: " ++ radicality.reason]
      else ["Radicality: Bypassed by override"]
    let significators := identify_significators chart quesited_house
    if ¬ significators.valid then
      { result := "CANNOT JUDGE", confidence := 0,
        reasoning := reasoning ++ [significators.reason], timing := none }
    else
      let reasoning := reasoning ++ ["Significators: " ++ significators.description]
      let querent_planet := significators.querent
      let quesited_planet := significators.quesited
      let solar_factors := analyze_enhanced_solar_factors chart ignore_combustion
      let cr :=
        if solar_factors.significant then
          let reasoning := reasoning ++ ["Solar conditions: " ++ solar_factors.summary]
          if solar_factors.cazimi_count > 0 then
            (confidence + (c.confidence.solar.cazimi_bonus : ℚ),
             reasoning ++ ["Cazimi planets significantly strengthen the judgment"])
          else if solar_factors.combustion_count > 0 ∧ ¬ ignore_combustion then
            (confidence - (c.confidence.solar.combustion_penalty : ℚ),
             reasoning ++ ["Combusted planets significantly weaken the judgment"])
          else (confidence, reasoning)
        else (confidence, reasoning)
      judgment_tail c chart querent_planet quesited_planet cr.1 cr.2
        ignore_void_moon exaltation_confidence_boost

/-- Response shape of `judge_question` restricted to the fields the error
taxonomy speaks about. -/
structure JudgeResponse where
  judgment : String
  confidence : ℚ
  reasoning : List String
  error : Option String := none
  error_type : Option String := none
deriving DecidableEq, Repr

/-- `judge_question`'s control flow around the external collaborators.
Geocoding (a blocking external call; also the "geocoder unavailable" branch
raises `LocationError`) is an `Except` value, and the whole downstream
computation — timezone resolution, ephemeris chart construction and the
judgment — is a second `Except` value whose failure models any exception
raised inside the `try` block.  The two `except` clauses of the source
become the two error branches. -/
def judge_question (geocode : Except String Unit)
    (computation : Except String JudgmentOutput) : JudgeResponse :=
  match geocode with
  | .error e =>
    { judgment := "LOCATION_ERROR", confidence := 0,
      reasoning := ["Location error: " ++ e],
      error := some e, error_type := some "LocationError" }
  | .ok _ =>
    match computation with
    | .error e =>
      { judgment := "ERROR", confidence := 0,
        reasoning := ["Calculation error: " ++ e],
        error := some e, error_type := none }
    | .ok judgment =>
      { judgment := judgment.result, confidence := judgment.confidence,
        reasoning := judgment.reasoning }

/-! ### Shared proof infrastructure -/

/-- Substring containment, used to state "reasoning text mentions ...". -/
def strContains (s pat : String) : Prop := pat.data <:+: s.data

instance (s pat : String) : Decidable (strContains s pat) :=
  inferInstanceAs (Decidable (pat.data <:+: s.data))

theorem strContains_append_left {a : String} (b : String) {pat : String}
    (h : strContains a pat) : strContains (a ++ b) pat := by
  obtain ⟨s, t, hst⟩ := h
  exact ⟨s, t ++ b.data, by rw [String.data_append, ← hst]; simp⟩

theorem strContains_append_right (a : String) {b pat : String}
    (h : strContains b pat) : strContains (a ++ b) pat := by
  obtain ⟨s, t, hst⟩ := h
  exact ⟨a.data ++ s, t, by rw [String.data_append, ← hst]; simp⟩

theorem findSome?_isSome_of_mem {α β : Type} {l : List α} {f : α → Option β}
    {a : α} (ha : a ∈ l) (hf : (f a).isSome) : (l.findSome? f).isSome := by
  induction l with
  | nil => simp at ha
  | cons x xs ih =>
    rw [List.findSome?_cons]
    cases hx : f x with
    | some v => simp
    | none =>
      rcases List.mem_cons.mp ha with h | h
      · subst h; rw [hx] at hf; simp at hf
      · exact ih h

theorem pyint_bounds {x : ℚ} (h0 : 0 ≤ x) (h1 : x ≤ 100) :
    0 ≤ (pyint x : ℚ) ∧ (pyint x : ℚ) ≤ 100 := by
  unfold pyint
  rw [if_pos h0]
  constructor
  · exact_mod_cast Int.floor_nonneg.mpr h0
  · calc ((⌊x⌋ : ℤ) : ℚ) ≤ x := Int.floor_le x
      _ ≤ 100 := h1

/-! ### Concrete configuration and charts for witnesses and counterexamples -/

/-- A concrete configuration instantiating the theorems.  The shipped YAML
defaults live in the missing `horary_config` module, so these are sample
values, not the repository's. -/
def sampleConfig : HoraryConfig := {}

/-- Build a `PlanetPosition` the way `calculate_chart` does (retrograde
iff the signed speed is negative). -/
def mkPos (p : Planet) (lon sp : ℚ) (sg : Sign) (h : ℤ) : PlanetPosition :=
  { planet := p, longitude := lon, latitude := 0, house := h, sign := sg,
    dignity_score := 0, retrograde := decide (sp < 0), speed := sp }

/-- Positions of a chart whose Moon (28° Virgo) makes no further aspect in
its sign: querent ruler Mars and quesited ruler Venus share no aspect, and
Mercury sits 5° from the Sun (combust). -/
def voidPlanets : Planet → PlanetPosition
  | .sun => mkPos .sun 50 1 .taurus 2
  | .moon => mkPos .moon 178 13 .virgo 6
  | .mercury => mkPos .mercury 55 (6/5) .taurus 2
  | .venus => mkPos .venus 140 (6/5) .leo 5
  | .mars => mkPos .mars 100 (1/2) .cancer 4
  | .jupiter => mkPos .jupiter 200 (1/10) .libra 7
  | .saturn => mkPos .saturn 320 (3/25) .aquarius 11
  | .asc => mkPos .asc 15 0 .aries 1
  | .mc => mkPos .mc 285 0 .capricorn 10

/-- A chart with a void-of-course Moon, no perfection and no denial;
aspects and solar analyses are computed by the embedded engine functions
(`moon_next_aspect` is irrelevant: the void branch returns before it is
read). -/
def chartVoid : HoraryChart :=
  { planets := voidPlanets,
    aspects := calculate_enhanced_aspects sampleConfig voidPlanets,
    house_rulers := fun h => if h = 1 then some .mars else if h = 7 then some .venus else none,
    ascendant := 15,
    solar_analyses := fun p =>
      analyze_enhanced_solar_condition sampleConfig p (voidPlanets p) (voidPlanets .sun) 0 }

/-- A chart whose Moon is stationary (zero daily speed); otherwise as
`chartVoid`. -/
def chartStat : HoraryChart :=
  { chartVoid with
    planets := fun p => if p = .moon then mkPos .moon 178 0 .virgo 6 else voidPlanets p }

/-! ### Claim theorems -/

set_option maxRecDepth 10000

/-- C10: if the Moon's absolute daily speed is below the configured
stationary-speed threshold, the by-sign void-of-course computation — and
the Lilly method, which delegates to it — reports the Moon as not void,
whatever aspects exist. -/
theorem moon_stationary_not_void (c : HoraryConfig) (chart : HoraryChart)
    (h : |(chart.planets .moon).speed| < c.timing.stationary_speed_threshold) :
    (void_by_sign_method c chart).void = false ∧
    (void_lilly_method c chart).void = false := by
  unfold void_lilly_method void_by_sign_method
  simp [h]

/-- Witness for C10: a concrete stationary-Moon chart is reported not void
by both methods. -/
theorem moon_stationary_not_void_witness :
    |(chartStat.planets .moon).speed| < sampleConfig.timing.stationary_speed_threshold ∧
    ((void_by_sign_method sampleConfig chartStat).void = false ∧
     (void_lilly_method sampleConfig chartStat).void = false) :=
  ⟨by with_unfolding_all decide,
   moon_stationary_not_void sampleConfig chartStat (by with_unfolding_all decide)⟩

/-- C9: the top-level entry point never propagates an exception — a
geocoding failure yields the dedicated LOCATION_ERROR response with
confidence 0 (distinct from calculation errors), any other failure yields
the generic ERROR verdict with confidence 0 and the message in the
reasoning trail, and a successful computation passes through. -/
theorem judge_question_error_taxonomy (e : String)
    (comp : Except String JudgmentOutput) (j : JudgmentOutput) :
    ((judge_question (.error e) comp).judgment = "LOCATION_ERROR" ∧
     (judge_question (.error e) comp).confidence = 0 ∧
     (judge_question (.error e) comp).error_type = some "LocationError") ∧
    ((judge_question (.ok ()) (.error e)).judgment = "ERROR" ∧
     (judge_question (.ok ()) (.error e)).confidence = 0 ∧
     (judge_question (.ok ()) (.error e)).error_type ≠ some "LocationError" ∧
     (∃ r ∈ (judge_question (.ok ()) (.error e)).reasoning, strContains r e)) ∧
    "LOCATION_ERROR" ≠ "ERROR" ∧
    judge_question (.ok ()) (.ok j) =
      { judgment := j.result, confidence := j.confidence, reasoning := j.reasoning } := by
  refine ⟨⟨rfl, rfl, rfl⟩, ⟨rfl, rfl, by simp [judge_question], ?_⟩, by decide, rfl⟩
  refine ⟨"Calculation error: " ++ e, by simp [judge_question], ?_⟩
  exact ⟨"Calculation error: ".data, [], by simp [String.data_append]⟩

/-- C6: for a non-Sun body the solar condition follows the strict
narrowest-to-widest hierarchy — Cazimi, else Combustion, else Under the
Beams, else Free — where the Mercury/Venus visibility exception downgrades
only the Combustion and Under-the-Beams classes to Free and never touches
Cazimi (whose analysis always records no exception). -/
theorem solar_condition_hierarchy (c : HoraryConfig) (planet : Planet)
    (pos sun_pos : PlanetPosition) (alt : ℚ) (hns : planet ≠ Planet.sun) :
    let e := calculate_elongation pos.longitude sun_pos.longitude
    let exc := if planet = .mercury ∨ planet = .venus then
        check_enhanced_combustion_exception planet pos sun_pos alt else false
    let A := analyze_enhanced_solar_condition c planet pos sun_pos alt
    (e ≤ c.orbs.cazimi_orb_arcmin / 60 → A.condition = .cazimi) ∧
    (¬ e ≤ c.orbs.cazimi_orb_arcmin / 60 → e ≤ c.orbs.combustion_orb →
      A.condition = if exc then .free else .combustion) ∧
    (¬ e ≤ c.orbs.cazimi_orb_arcmin / 60 → ¬ e ≤ c.orbs.combustion_orb →
      e ≤ c.orbs.under_beams_orb →
      A.condition = if exc then .free else .underBeams) ∧
    (¬ e ≤ c.orbs.cazimi_orb_arcmin / 60 → ¬ e ≤ c.orbs.combustion_orb →
      ¬ e ≤ c.orbs.under_beams_orb → A.condition = .free) ∧
    (A.condition = .cazimi → A.traditional_exception = false) := by
  simp only [analyze_enhanced_solar_condition, if_neg hns]
  split_ifs <;> simp_all

/-- Witness for C6: Venus 6° from the Sun with the visibility exception
unavailable is classified combust (the sample combustion orb being 8.5°
and the cazimi orb 17 arcminutes). -/
theorem solar_condition_hierarchy_witness :
    (Planet.venus : Planet) ≠ Planet.sun ∧
    (let e := calculate_elongation (mkPos .venus 56 (6/5) .taurus 2).longitude
        (voidPlanets .sun).longitude
     let exc := if (Planet.venus : Planet) = .mercury ∨ (Planet.venus : Planet) = .venus then
         check_enhanced_combustion_exception .venus (mkPos .venus 56 (6/5) .taurus 2)
           (voidPlanets .sun) 0 else false
     let A := analyze_enhanced_solar_condition sampleConfig .venus
         (mkPos .venus 56 (6/5) .taurus 2) (voidPlanets .sun) 0
     (e ≤ sampleConfig.orbs.cazimi_orb_arcmin / 60 → A.condition = .cazimi) ∧
     (¬ e ≤ sampleConfig.orbs.cazimi_orb_arcmin / 60 → e ≤ sampleConfig.orbs.combustion_orb →
       A.condition = if exc then .free else .combustion) ∧
     (¬ e ≤ sampleConfig.orbs.cazimi_orb_arcmin / 60 → ¬ e ≤ sampleConfig.orbs.combustion_orb →
       e ≤ sampleConfig.orbs.under_beams_orb →
       A.condition = if exc then .free else .underBeams) ∧
     (¬ e ≤ sampleConfig.orbs.cazimi_orb_arcmin / 60 → ¬ e ≤ sampleConfig.orbs.combustion_orb →
       ¬ e ≤ sampleConfig.orbs.under_beams_orb → A.condition = .free) ∧
     (A.condition = .cazimi → A.traditional_exception = false)) :=
  ⟨by decide,
   solar_condition_hierarchy sampleConfig .venus (mkPos .venus 56 (6/5) .taurus 2)
     (voidPlanets .sun) 0 (by decide)⟩

/-- Positions with the Moon at 100° (Cancer) and the Sun at 0° (Aries):
a waxing-gibbous-band elongation of 100° under an eight-equal-band reading. -/
def phasePlanets : Planet → PlanetPosition
  | .moon => mkPos .moon 100 13 .cancer 4
  | .sun => mkPos .sun 0 1 .aries 1
  | p => mkPos p 0 1 .aries 1

/-- Minimal chart for the Moon-phase banding claims. -/
def chartPhase : HoraryChart :=
  { planets := phasePlanets, aspects := [], house_rulers := fun _ => none,
    ascendant := 15,
    solar_analyses := fun p =>
      { planet := p, distance_from_sun := 0, condition := .free } }

/-- The folded Sun–Moon elongation the phase functions compute
(`elongation = abs(...); if elongation > 180: elongation = 360 - ...`). -/
def folded_elongation (chart : HoraryChart) : ℚ :=
  let e0 := |(chart.planets .moon).longitude - (chart.planets .sun).longitude|
  if e0 > 180 then 360 - e0 else e0

/-- The eight configured phase branches collapse to five bands on a folded
elongation in `[0,180]`. -/
theorem phase_band_collapse (pb : PhaseBonusCfg) (E : ℚ)
    (he0 : 0 ≤ E) (he1 : E ≤ 180) :
    (if 0 ≤ E ∧ E < 30 then pb.new_moon
     else if 30 ≤ E ∧ E < 60 then pb.waxing_crescent
     else if 60 ≤ E ∧ E < 120 then pb.first_quarter
     else if 120 ≤ E ∧ E < 150 then pb.waxing_gibbous
     else if 150 ≤ E ∧ E < 210 then pb.full_moon
     else if 210 ≤ E ∧ E < 240 then pb.waning_gibbous
     else if 240 ≤ E ∧ E < 300 then pb.last_quarter
     else pb.waning_crescent) =
    (if E < 30 then pb.new_moon
     else if E < 60 then pb.waxing_crescent
     else if E < 120 then pb.first_quarter
     else if E < 150 then pb.waxing_gibbous
     else pb.full_moon) := by
  rcases lt_or_le E 30 with h1 | h1
  · rw [if_pos ⟨he0, h1⟩, if_pos h1]
  rcases lt_or_le E 60 with h2 | h2
  · rw [if_neg (fun hc => by linarith [hc.2]), if_pos ⟨h1, h2⟩,
      if_neg (not_lt.mpr h1), if_pos h2]
  rcases lt_or_le E 120 with h3 | h3
  · rw [if_neg (fun hc => by linarith [hc.2]), if_neg (fun hc => by linarith [hc.2]),
      if_pos ⟨h2, h3⟩, if_neg (not_lt.mpr h1), if_neg (not_lt.mpr h2), if_pos h3]
  rcases lt_or_le E 150 with h4 | h4
  · rw [if_neg (fun hc => by linarith [hc.2]), if_neg (fun hc => by linarith [hc.2]),
      if_neg (fun hc => by linarith [hc.2]), if_pos ⟨h3, h4⟩,
      if_neg (not_lt.mpr h1), if_neg (not_lt.mpr h2), if_neg (not_lt.mpr h3), if_pos h4]
  · rw [if_neg (fun hc => by linarith [hc.2]), if_neg (fun hc => by linarith [hc.2]),
      if_neg (fun hc => by linarith [hc.2]), if_neg (fun hc => by linarith [hc.2]),
      if_pos ⟨h4, by linarith⟩, if_neg (not_lt.mpr h1), if_neg (not_lt.mpr h2),
      if_neg (not_lt.mpr h3), if_neg (not_lt.mpr h4)]

/-- Counterexample for C7: the elongation 100° lies in the fourth of eight
equal 30° bands (waxing gibbous), yet the code returns the first-quarter
bonus — its `[60,120)` branch is 60° wide, so the eight-equal-band reading
is false. -/
theorem moon_phase_band_counterexample :
    (90 ≤ folded_elongation chartPhase ∧ folded_elongation chartPhase < 120) ∧
    moon_phase_bonus sampleConfig chartPhase = sampleConfig.moon.phase_bonus.first_quarter ∧
    moon_phase_bonus sampleConfig chartPhase ≠ sampleConfig.moon.phase_bonus.waxing_gibbous := by
  with_unfolding_all decide

/-- C7 (amended): the Sun–Moon elongation is folded into `[0,180]`, and the
phase bonus is then drawn from five reachable bands — new `[0,30)`, waxing
crescent `[30,60)`, first quarter `[60,120)`, waxing gibbous `[120,150)`,
full `[150,180]`; the waning-gibbous, last-quarter and waning-crescent
bonuses are unreachable. -/
theorem moon_phase_bonus_five_bands (c : HoraryConfig) (chart : HoraryChart)
    (hm0 : 0 ≤ (chart.planets .moon).longitude)
    (hm1 : (chart.planets .moon).longitude < 360)
    (hs0 : 0 ≤ (chart.planets .sun).longitude)
    (hs1 : (chart.planets .sun).longitude < 360) :
    0 ≤ folded_elongation chart ∧ folded_elongation chart ≤ 180 ∧
    moon_phase_bonus c chart =
      (if folded_elongation chart < 30 then c.moon.phase_bonus.new_moon
       else if folded_elongation chart < 60 then c.moon.phase_bonus.waxing_crescent
       else if folded_elongation chart < 120 then c.moon.phase_bonus.first_quarter
       else if folded_elongation chart < 150 then c.moon.phase_bonus.waxing_gibbous
       else c.moon.phase_bonus.full_moon) := by
  have hd0 : (0 : ℚ) ≤
      |(chart.planets .moon).longitude - (chart.planets .sun).longitude| := abs_nonneg _
  have hd1 : |(chart.planets .moon).longitude - (chart.planets .sun).longitude| < 360 := by
    rw [abs_sub_lt_iff]
    constructor <;> linarith
  have he0 : 0 ≤ folded_elongation chart := by
    unfold folded_elongation
    dsimp only
    split_ifs <;> linarith
  have he1 : folded_elongation chart ≤ 180 := by
    unfold folded_elongation
    dsimp only
    split_ifs <;> linarith
  refine ⟨he0, he1, ?_⟩
  have hmb : moon_phase_bonus c chart =
      (if 0 ≤ folded_elongation chart ∧ folded_elongation chart < 30 then
         c.moon.phase_bonus.new_moon
       else if 30 ≤ folded_elongation chart ∧ folded_elongation chart < 60 then
         c.moon.phase_bonus.waxing_crescent
       else if 60 ≤ folded_elongation chart ∧ folded_elongation chart < 120 then
         c.moon.phase_bonus.first_quarter
       else if 120 ≤ folded_elongation chart ∧ folded_elongation chart < 150 then
         c.moon.phase_bonus.waxing_gibbous
       else if 150 ≤ folded_elongation chart ∧ folded_elongation chart < 210 then
         c.moon.phase_bonus.full_moon
       else if 210 ≤ folded_elongation chart ∧ folded_elongation chart < 240 then
         c.moon.phase_bonus.waning_gibbous
       else if 240 ≤ folded_elongation chart ∧ folded_elongation chart < 300 then
         c.moon.phase_bonus.last_quarter
       else c.moon.phase_bonus.waning_crescent) := rfl
  rw [hmb, phase_band_collapse c.moon.phase_bonus (folded_elongation chart) he0 he1]

/-- Witness for C7's amended theorem at the concrete 100°-elongation chart. -/
theorem moon_phase_bonus_five_bands_witness :
    (0 ≤ (chartPhase.planets .moon).longitude ∧
     (chartPhase.planets .moon).longitude < 360 ∧
     0 ≤ (chartPhase.planets .sun).longitude ∧
     (chartPhase.planets .sun).longitude < 360) ∧
    (0 ≤ folded_elongation chartPhase ∧ folded_elongation chartPhase ≤ 180 ∧
     moon_phase_bonus sampleConfig chartPhase =
       (if folded_elongation chartPhase < 30 then sampleConfig.moon.phase_bonus.new_moon
        else if folded_elongation chartPhase < 60 then
          sampleConfig.moon.phase_bonus.waxing_crescent
        else if folded_elongation chartPhase < 120 then
          sampleConfig.moon.phase_bonus.first_quarter
        else if folded_elongation chartPhase < 150 then
          sampleConfig.moon.phase_bonus.waxing_gibbous
        else sampleConfig.moon.phase_bonus.full_moon)) :=
  ⟨by with_unfolding_all decide,
   moon_phase_bonus_five_bands sampleConfig chartPhase
     (by with_unfolding_all decide) (by with_unfolding_all decide)
     (by with_unfolding_all decide) (by with_unfolding_all decide)⟩

/-- A chart whose ascendant degree-in-sign equals the too-early threshold
exactly (3° with the sample configuration). -/
def chartAsc3 : HoraryChart := { chartPhase with ascendant := 3 }

/-- A chart whose ascendant degree-in-sign is 2°, below the 3° too-early
threshold. -/
def chartAsc2 : HoraryChart := { chartPhase with ascendant := 2 }

/-- Counterexample for C8: at an ascendant degree exactly equal to the
too-early threshold the degree is not strictly between the thresholds,
yet the screen passes — the code's interval is closed, not open. -/
theorem radicality_boundary_counterexample :
    (check_enhanced_radicality sampleConfig chartAsc3 false).valid = true ∧
    pymod chartAsc3.ascendant 30 = sampleConfig.radicality.asc_too_early ∧
    ¬ (sampleConfig.radicality.asc_too_early < pymod chartAsc3.ascendant 30 ∧
       pymod chartAsc3.ascendant 30 < sampleConfig.radicality.asc_too_late) := by
  with_unfolding_all decide

/-- C8 (amended): when neither the Saturn-in-7th nor the Via-Combusta
condition fires, the radicality screen passes exactly when the ascendant's
degree-within-sign lies in the closed interval between the configured
thresholds (boundary degrees pass); and an ascendant degree below the
too-early threshold yields the "NOT RADICAL" verdict with confidence 0 and
a reasoning entry mentioning "premature". -/
theorem radicality_ascendant_screen (c : HoraryConfig) (chart : HoraryChart)
    (qh : ℤ) (ig7 iv ic : Bool) (boost : ℚ)
    (hsat : ¬ (c.radicality.saturn_7th_enabled ∧ ¬ ig7 ∧
      (chart.planets .saturn).house = 7))
    (hvia : ¬ (c.radicality.via_combusta_enabled ∧
      (((chart.planets .moon).sign = .libra ∧
        pymod (chart.planets .moon).longitude 30 > c.radicality.via_combusta.libra_start) ∨
       ((chart.planets .moon).sign = .scorpio ∧ c.radicality.via_combusta.scorpio_full) ∨
       ((chart.planets .moon).sign = .capricorn ∧
        pymod (chart.planets .moon).longitude 30 > c.radicality.via_combusta.capricorn_start)))) :
    ((check_enhanced_radicality c chart ig7).valid = true ↔
      (c.radicality.asc_too_early ≤ pymod chart.ascendant 30 ∧
       pymod chart.ascendant 30 ≤ c.radicality.asc_too_late)) ∧
    (pymod chart.ascendant 30 < c.radicality.asc_too_early →
      (apply_enhanced_judgment c chart qh false iv ic ig7 boost).result = "NOT RADICAL" ∧
      (apply_enhanced_judgment c chart qh false iv ic ig7 boost).confidence = 0 ∧
      ∃ r ∈ (apply_enhanced_judgment c chart qh false iv ic ig7 boost).reasoning,
        strContains r "premature") := by
  constructor
  · unfold check_enhanced_radicality
    dsimp only
    split_ifs with h1 h2
    · simp only [false_iff, not_and, not_le]
      intro ha
      linarith
    · simp only [false_iff, not_and, not_le]
      intro _
      linarith
    · exact ⟨fun _ => ⟨not_lt.mp h1, not_lt.mp h2⟩, fun _ => rfl⟩
  · intro hlt
    have hrad : check_enhanced_radicality c chart ig7 =
        { valid := false,
          reason := "Ascendant too early at " ++ fmt_f1 (pymod chart.ascendant 30) ++
            "° - question premature or not mature" } := by
      unfold check_enhanced_radicality
      rw [if_pos hlt]
    have hout : apply_enhanced_judgment c chart qh false iv ic ig7 boost =
        { result := "NOT RADICAL", confidence := 0,
          reasoning := [(check_enhanced_radicality c chart ig7).reason],
          timing := none } := by
      unfold apply_enhanced_judgment
      rw [if_pos]
      rw [hrad]
      simp
    refine ⟨by rw [hout], by rw [hout], ?_⟩
    rw [hout, hrad]
    refine ⟨_, List.mem_singleton_self _, ?_⟩
    exact strContains_append_right _ (by decide)

/-- Witness for C8's amended theorem at the 2°-ascendant chart. -/
theorem radicality_ascendant_screen_witness :
    (¬ (sampleConfig.radicality.saturn_7th_enabled ∧ ¬ (false : Bool) ∧
        (chartAsc2.planets .saturn).house = 7)) ∧
    (((check_enhanced_radicality sampleConfig chartAsc2 false).valid = true ↔
       (sampleConfig.radicality.asc_too_early ≤ pymod chartAsc2.ascendant 30 ∧
        pymod chartAsc2.ascendant 30 ≤ sampleConfig.radicality.asc_too_late)) ∧
     (pymod chartAsc2.ascendant 30 < sampleConfig.radicality.asc_too_early →
       (apply_enhanced_judgment sampleConfig chartAsc2 7 false false false false 15).result =
         "NOT RADICAL" ∧
       (apply_enhanced_judgment sampleConfig chartAsc2 7 false false false false 15).confidence =
         0 ∧
       ∃ r ∈ (apply_enhanced_judgment sampleConfig chartAsc2 7 false false false false
           15).reasoning, strContains r "premature")) :=
  ⟨by with_unfolding_all decide,
   radicality_ascendant_screen sampleConfig chartAsc2 7 false false false 15
     (by with_unfolding_all decide) (by with_unfolding_all decide)⟩

/-- Mars exactly on the Taurus cusp (30°), retrograde: its sign exit is 0
days away. -/
def posCusp : PlanetPosition := mkPos .mars 30 (-1) .taurus 4

/-- Venus at 27° Aries applying to the conjunction with `posCusp`. -/
def posBehind : PlanetPosition := mkPos .venus 27 (1/2) .aries 4

/-- C3: at a pair within conjunction orb whose faster body sits exactly on
a sign cusp moving retrograde, the sign exit is 0 days away and perfection
is 2 days away, yet the pair is still classified applying — the
`if faster_days_to_exit and ...` guard treats a 0.0-day exit as falsy and
skips the cutoff, against the code's own comment and the spec. -/
theorem applying_zero_exit_evaluation :
    |angSep posCusp.longitude posBehind.longitude - Aspect.degrees .conjunction| ≤
      aspectOrb sampleConfig .conjunction ∧
    days_to_sign_exit posCusp.longitude posCusp.speed = some 0 ∧
    degrees_to_exact_of posCusp posBehind .conjunction / |posCusp.speed - posBehind.speed| = 2 ∧
    is_applying_enhanced sampleConfig posCusp posBehind .conjunction = true := by
  with_unfolding_all decide

/-- C4: with the by-sign void rule configured, a void Moon with no
exception, and no perfection or denial firing, the judgment is verdict NO
with reasoning mentioning "void of course" and timing "Nothing comes of
the matter". -/
theorem void_moon_terminal_no (c : HoraryConfig) (chart : HoraryChart)
    (qh : ℤ) (ic ig7 : Bool) (boost : ℚ)
    (hrule : c.moon.void_rule = "by_sign")
    (hv : (void_by_sign_method c chart).void = true)
    (he : (void_by_sign_method c chart).exception = false)
    (hrad : (check_enhanced_radicality c chart ig7).valid = true)
    (hsig : (identify_significators chart qh).valid = true)
    (hperf : (check_enhanced_perfection c chart (identify_significators chart qh).querent
        (identify_significators chart qh).quesited boost).perfects = false)
    (hden : (check_enhanced_denial_conditions c chart (identify_significators chart qh).querent
        (identify_significators chart qh).quesited).denied = false) :
    (apply_enhanced_judgment c chart qh false false ic ig7 boost).result = "NO" ∧
    (∃ r ∈ (apply_enhanced_judgment c chart qh false false ic ig7 boost).reasoning,
      strContains r "void of course") ∧
    (apply_enhanced_judgment c chart qh false false ic ig7 boost).timing =
      some "Nothing comes of the matter" := by
  have hvm : is_moon_void_of_course_enhanced c chart = void_by_sign_method c chart := by
    unfold is_moon_void_of_course_enhanced
    rw [if_pos hrule]
  have hmt : ∀ q1 q2 : Planet, check_enhanced_moon_testimony c chart q1 q2 false =
      { favorable := false, unfavorable := true,
        reason := "Moon void of course - " ++ (void_by_sign_method c chart).reason,
        void_of_course := true,
        timing := some "Nothing comes of the matter" } := by
    intro q1 q2
    unfold check_enhanced_moon_testimony
    simp [hvm, hv, he]
  unfold apply_enhanced_judgment judgment_tail
  simp only [hrad, hsig, hperf, hden, hmt]
  simp only [Bool.not_eq_true, Bool.false_eq_true, not_false_eq_true, and_true, not_true,
    false_and, and_false, if_false, ite_false, ite_true, Bool.not_true, if_true]
  refine ⟨?_, ?_, ?_⟩
  · simp
  · refine ⟨"Moon: " ++ ("Moon void of course - " ++ (void_by_sign_method c chart).reason), ?_, ?_⟩
    · simp
    · exact strContains_append_right "Moon: "
        (strContains_append_left _ (by decide))
  · simp

/-- Witness for C4: the concrete void-Moon chart yields NO, a "void of
course" reasoning entry and the "Nothing comes of the matter" timing. -/
theorem void_moon_terminal_no_witness :
    (sampleConfig.moon.void_rule = "by_sign" ∧
     (void_by_sign_method sampleConfig chartVoid).void = true ∧
     (void_by_sign_method sampleConfig chartVoid).exception = false ∧
     (check_enhanced_radicality sampleConfig chartVoid false).valid = true ∧
     (identify_significators chartVoid 7).valid = true ∧
     (check_enhanced_perfection sampleConfig chartVoid
       (identify_significators chartVoid 7).querent
       (identify_significators chartVoid 7).quesited 15).perfects = false ∧
     (check_enhanced_denial_conditions sampleConfig chartVoid
       (identify_significators chartVoid 7).querent
       (identify_significators chartVoid 7).quesited).denied = false) ∧
    ((apply_enhanced_judgment sampleConfig chartVoid 7 false false false false 15).result =
       "NO" ∧
     (∃ r ∈ (apply_enhanced_judgment sampleConfig chartVoid 7 false false false false
         15).reasoning, strContains r "void of course") ∧
     (apply_enhanced_judgment sampleConfig chartVoid 7 false false false false 15).timing =
       some "Nothing comes of the matter") :=
  ⟨by with_unfolding_all decide,
   void_moon_terminal_no sampleConfig chartVoid 7 false false 15
     (by with_unfolding_all decide) (by with_unfolding_all decide)
     (by with_unfolding_all decide) (by with_unfolding_all decide)
     (by with_unfolding_all decide) (by with_unfolding_all decide)
     (by with_unfolding_all decide)⟩

theorem exists_of_findSome?_eq_some {α β : Type} {l : List α} {f : α → Option β}
    {r : β} (h : l.findSome? f = some r) : ∃ a ∈ l, f a = some r := by
  induction l with
  | nil => simp [List.findSome?_nil] at h
  | cons x xs ih =>
    rw [List.findSome?_cons] at h
    revert h
    cases hx : f x with
    | some v =>
      intro h
      simp only at h
      exact ⟨x, List.mem_cons_self x xs, by rw [hx, h]⟩
    | none =>
      intro h
      simp only at h
      obtain ⟨a, ha, hfa⟩ := ih h
      exact ⟨a, List.mem_cons_of_mem x ha, hfa⟩

/-- Every positive outcome of the prohibition scan carries the configured
prohibition confidence and the denied flag. -/
theorem prohibition_check_shape {c : HoraryConfig} {chart : HoraryChart}
    {querent quesited : Planet} {a : AspectInfo} {r : DenialResult}
    (h : prohibition_check c chart querent quesited a = some r) :
    r.denied = true ∧ r.confidence = c.confidence.denial.prohibition := by
  unfold prohibition_check at h
  split_ifs at h <;> simp at h
  all_goals
    obtain ⟨-, h2⟩ := h
    revert h2
    cases find_applying_aspect chart querent quesited with
    | none =>
      intro h2
      simp at h2
    | some sig =>
      intro h2
      simp only at h2
      split_ifs at h2
      rw [Option.some_inj] at h2
      rw [← h2]
      exact ⟨rfl, rfl⟩

/-- The denial result's confidence is one of three configured values. -/
theorem denial_confidence_cases (c : HoraryConfig) (chart : HoraryChart)
    (q1 q2 : Planet) :
    (check_enhanced_denial_conditions c chart q1 q2).confidence = 0 ∨
    (check_enhanced_denial_conditions c chart q1 q2).confidence =
      c.confidence.denial.prohibition ∨
    (check_enhanced_denial_conditions c chart q1 q2).confidence =
      c.confidence.denial.frustration_retrograde := by
  unfold check_enhanced_denial_conditions
  dsimp only
  cases hf : chart.aspects.findSome? (prohibition_check c chart q1 q2) with
  | some r =>
    obtain ⟨a, _, hfa⟩ := exists_of_findSome?_eq_some hf
    dsimp only
    exact Or.inr (Or.inl (prohibition_check_shape hfa).2)
  | none =>
    dsimp only
    split_ifs
    · exact Or.inr (Or.inr rfl)
    · exact Or.inr (Or.inr rfl)
    · exact Or.inl rfl

/-- Every positive outcome of the direct-perfection stage carries one of
its three configured confidences. -/
theorem direct_perfection_confidence {c : HoraryConfig} {chart : HoraryChart}
    {q1 q2 : Planet} {boost : ℚ} {r : PerfectionResult}
    (h : direct_perfection c chart q1 q2 boost = some r) :
    r.confidence = c.confidence.perfection.direct_with_mutual_rulership ∨
    r.confidence =
      (pyint (min 100 (c.confidence.perfection.direct_with_mutual_exaltation + boost)) : ℚ) ∨
    r.confidence = c.confidence.perfection.direct_basic := by
  unfold direct_perfection at h
  revert h
  cases find_applying_aspect chart q1 q2 with
  | none =>
    intro h
    simp at h
  | some da =>
    intro h
    simp only at h
    split_ifs at h <;>
      (rw [Option.some_inj] at h
       rw [← h]
       first
         | exact Or.inl rfl
         | exact Or.inr (Or.inl rfl)
         | exact Or.inr (Or.inr rfl))

/-- The perfection result's confidence is one of the configured values
(or 0 when nothing perfects). -/
theorem perfection_confidence_cases (c : HoraryConfig) (chart : HoraryChart)
    (q1 q2 : Planet) (boost : ℚ) :
    (check_enhanced_perfection c chart q1 q2 boost).confidence = 0 ∨
    (check_enhanced_perfection c chart q1 q2 boost).confidence =
      c.confidence.perfection.direct_with_mutual_rulership ∨
    (check_enhanced_perfection c chart q1 q2 boost).confidence =
      (pyint (min 100 (c.confidence.perfection.direct_with_mutual_exaltation + boost)) : ℚ) ∨
    (check_enhanced_perfection c chart q1 q2 boost).confidence =
      c.confidence.perfection.direct_basic ∨
    (check_enhanced_perfection c chart q1 q2 boost).confidence =
      c.confidence.perfection.translation_of_light ∨
    (check_enhanced_perfection c chart q1 q2 boost).confidence =
      c.confidence.perfection.collection_of_light ∨
    (check_enhanced_perfection c chart q1 q2 boost).confidence =
      c.confidence.perfection.reception_only ∨
    (check_enhanced_perfection c chart q1 q2 boost).confidence =
      (pyint (min 100 (c.confidence.perfection.reception_only + boost)) : ℚ) := by
  unfold check_enhanced_perfection
  cases hd : direct_perfection c chart q1 q2 boost with
  | some r =>
    dsimp only
    rcases direct_perfection_confidence hd with h | h | h
    · exact Or.inr (Or.inl h)
    · exact Or.inr (Or.inr (Or.inl h))
    · exact Or.inr (Or.inr (Or.inr (Or.inl h)))
  | none =>
    dsimp only
    split_ifs <;>
      first
        | exact Or.inl rfl
        | exact Or.inr (Or.inr (Or.inr (Or.inr (Or.inl rfl))))
        | exact Or.inr (Or.inr (Or.inr (Or.inr (Or.inr (Or.inl rfl)))))
        | exact Or.inr (Or.inr (Or.inr (Or.inr (Or.inr (Or.inr (Or.inl rfl))))))
        | exact Or.inr (Or.inr (Or.inr (Or.inr (Or.inr (Or.inr (Or.inr rfl))))))

/-- A minimum against a value in `[0,100]` stays in `[0,100]` when the
other argument is nonnegative. -/
theorem min_conf_bounds {a b : ℚ} (ha : 0 ≤ a) (hb0 : 0 ≤ b) (hb1 : b ≤ 100) :
    0 ≤ min a b ∧ min a b ≤ 100 :=
  ⟨le_min ha hb0, le_trans (min_le_right _ _) hb1⟩

/-- A configuration identical to the sample one except that the combustion
confidence penalty (60) exceeds the base confidence (50). -/
def cfgHot : HoraryConfig :=
  { sampleConfig with
    confidence := { sampleConfig.confidence with
      solar := { sampleConfig.confidence.solar with combustion_penalty := 60 } } }

/-- Counterexample for C1: the code never clamps the final confidence; with
a combustion penalty above the base confidence the void-Moon chart is
judged with a negative confidence. -/
theorem confidence_unclamped_counterexample :
    (apply_enhanced_judgment cfgHot chartVoid 7 false false false false 15).confidence < 0 := by
  with_unfolding_all decide

/-- The perfection/denial/lunar stage keeps a nonnegative running
confidence inside `[0,100]` when every configured confidence value is. -/
theorem judgment_tail_confidence_bounds (c : HoraryConfig) (chart : HoraryChart)
    (q1 q2 : Planet) (conf : ℚ) (rs : List String) (iv : Bool) (boost : ℚ)
    (h0 : 0 ≤ conf)
    (hboost : 0 ≤ boost)
    (hdmr : 0 ≤ c.confidence.perfection.direct_with_mutual_rulership ∧
      c.confidence.perfection.direct_with_mutual_rulership ≤ 100)
    (hdme : 0 ≤ c.confidence.perfection.direct_with_mutual_exaltation ∧
      c.confidence.perfection.direct_with_mutual_exaltation ≤ 100)
    (hdb : 0 ≤ c.confidence.perfection.direct_basic ∧
      c.confidence.perfection.direct_basic ≤ 100)
    (htr : 0 ≤ c.confidence.perfection.translation_of_light ∧
      c.confidence.perfection.translation_of_light ≤ 100)
    (hco : 0 ≤ c.confidence.perfection.collection_of_light ∧
      c.confidence.perfection.collection_of_light ≤ 100)
    (hro : 0 ≤ c.confidence.perfection.reception_only ∧
      c.confidence.perfection.reception_only ≤ 100)
    (hpr : 0 ≤ c.confidence.denial.prohibition ∧ c.confidence.denial.prohibition ≤ 100)
    (hfr : 0 ≤ c.confidence.denial.frustration_retrograde ∧
      c.confidence.denial.frustration_retrograde ≤ 100)
    (hcf : 0 ≤ c.confidence.lunar_confidence_caps.favorable ∧
      c.confidence.lunar_confidence_caps.favorable ≤ 100)
    (hcu : 0 ≤ c.confidence.lunar_confidence_caps.unfavorable ∧
      c.confidence.lunar_confidence_caps.unfavorable ≤ 100)
    (hcn : 0 ≤ c.confidence.lunar_confidence_caps.neutral ∧
      c.confidence.lunar_confidence_caps.neutral ≤ 100) :
    0 ≤ (judgment_tail c chart q1 q2 conf rs iv boost).confidence ∧
    (judgment_tail c chart q1 q2 conf rs iv boost).confidence ≤ 100 := by
  have hpe : 0 ≤ (check_enhanced_perfection c chart q1 q2 boost).confidence ∧
      (check_enhanced_perfection c chart q1 q2 boost).confidence ≤ 100 := by
    rcases perfection_confidence_cases c chart q1 q2 boost with
      h | h | h | h | h | h | h | h <;> rw [h]
    · exact ⟨le_refl 0, by norm_num⟩
    · exact hdmr
    · exact pyint_bounds (le_min (by norm_num) (by linarith [hdme.1])) (min_le_left _ _)
    · exact hdb
    · exact htr
    · exact hco
    · exact hro
    · exact pyint_bounds (le_min (by norm_num) (by linarith [hro.1])) (min_le_left _ _)
  have hde : 0 ≤ (check_enhanced_denial_conditions c chart q1 q2).confidence ∧
      (check_enhanced_denial_conditions c chart q1 q2).confidence ≤ 100 := by
    rcases denial_confidence_cases c chart q1 q2 with h | h | h <;> rw [h]
    · exact ⟨le_refl 0, by norm_num⟩
    · exact hpr
    · exact hfr
  unfold judgment_tail
  dsimp only
  split_ifs <;>
    first
      | exact min_conf_bounds h0 hpe.1 hpe.2
      | exact min_conf_bounds h0 hde.1 hde.2
      | exact min_conf_bounds h0 hcf.1 hcf.2
      | exact min_conf_bounds h0 hcu.1 hcu.2
      | exact min_conf_bounds h0 hcn.1 hcn.2

/-- C1 (amended): the returned confidence lies in `[0,100]` on every path
provided the configured confidence values do — each perfection, denial and
lunar-cap value in `[0,100]`, the exaltation boost nonnegative, the cazimi
bonus nonnegative, and the combustion penalty at most the base confidence.
There is no final clamp in the code, so these conditions are needed. -/
theorem judgment_confidence_in_range (c : HoraryConfig) (chart : HoraryChart)
    (qh : ℤ) (ir iv ic ig7 : Bool) (boost : ℚ)
    (hb : 0 ≤ c.confidence.base_confidence)
    (hcazb : 0 ≤ (c.confidence.solar.cazimi_bonus : ℚ))
    (hcombb : (c.confidence.solar.combustion_penalty : ℚ) ≤ c.confidence.base_confidence)
    (hboost : 0 ≤ boost)
    (hdmr : 0 ≤ c.confidence.perfection.direct_with_mutual_rulership ∧
      c.confidence.perfection.direct_with_mutual_rulership ≤ 100)
    (hdme : 0 ≤ c.confidence.perfection.direct_with_mutual_exaltation ∧
      c.confidence.perfection.direct_with_mutual_exaltation ≤ 100)
    (hdb : 0 ≤ c.confidence.perfection.direct_basic ∧
      c.confidence.perfection.direct_basic ≤ 100)
    (htr : 0 ≤ c.confidence.perfection.translation_of_light ∧
      c.confidence.perfection.translation_of_light ≤ 100)
    (hco : 0 ≤ c.confidence.perfection.collection_of_light ∧
      c.confidence.perfection.collection_of_light ≤ 100)
    (hro : 0 ≤ c.confidence.perfection.reception_only ∧
      c.confidence.perfection.reception_only ≤ 100)
    (hpr : 0 ≤ c.confidence.denial.prohibition ∧ c.confidence.denial.prohibition ≤ 100)
    (hfr : 0 ≤ c.confidence.denial.frustration_retrograde ∧
      c.confidence.denial.frustration_retrograde ≤ 100)
    (hcf : 0 ≤ c.confidence.lunar_confidence_caps.favorable ∧
      c.confidence.lunar_confidence_caps.favorable ≤ 100)
    (hcu : 0 ≤ c.confidence.lunar_confidence_caps.unfavorable ∧
      c.confidence.lunar_confidence_caps.unfavorable ≤ 100)
    (hcn : 0 ≤ c.confidence.lunar_confidence_caps.neutral ∧
      c.confidence.lunar_confidence_caps.neutral ≤ 100) :
    0 ≤ (apply_enhanced_judgment c chart qh ir iv ic ig7 boost).confidence ∧
    (apply_enhanced_judgment c chart qh ir iv ic ig7 boost).confidence ≤ 100 := by
  have hA_caz : 0 ≤ c.confidence.base_confidence + (c.confidence.solar.cazimi_bonus : ℚ) := by
    linarith
  have hA_comb : 0 ≤ c.confidence.base_confidence -
      (c.confidence.solar.combustion_penalty : ℚ) := by
    linarith
  unfold apply_enhanced_judgment
  dsimp only
  split_ifs <;>
    first
      | exact ⟨le_refl 0, by norm_num⟩
      | exact judgment_tail_confidence_bounds c chart _ _ _ _ iv boost hA_caz hboost
          hdmr hdme hdb htr hco hro hpr hfr hcf hcu hcn
      | exact judgment_tail_confidence_bounds c chart _ _ _ _ iv boost hA_comb hboost
          hdmr hdme hdb htr hco hro hpr hfr hcf hcu hcn
      | exact judgment_tail_confidence_bounds c chart _ _ _ _ iv boost hb hboost
          hdmr hdme hdb htr hco hro hpr hfr hcf hcu hcn

/-- Witness for C1's amended theorem: the sample configuration meets every
bound, and the void-Moon chart's judgment confidence lies in `[0,100]`. -/
theorem judgment_confidence_in_range_witness :
    (0 ≤ sampleConfig.confidence.base_confidence ∧
     sampleConfig.confidence.base_confidence ≤ 100 ∧
     (sampleConfig.confidence.solar.combustion_penalty : ℚ) ≤
       sampleConfig.confidence.base_confidence) ∧
    (0 ≤ (apply_enhanced_judgment sampleConfig chartVoid 7 false false false false
        15).confidence ∧
     (apply_enhanced_judgment sampleConfig chartVoid 7 false false false false
        15).confidence ≤ 100) :=
  ⟨by with_unfolding_all decide,
   judgment_confidence_in_range sampleConfig chartVoid 7 false false false false 15
     (by with_unfolding_all decide) (by with_unfolding_all decide)
     (by with_unfolding_all decide) (by with_unfolding_all decide)
     (by with_unfolding_all decide) (by with_unfolding_all decide)
     (by with_unfolding_all decide) (by with_unfolding_all decide)
     (by with_unfolding_all decide) (by with_unfolding_all decide)
     (by with_unfolding_all decide) (by with_unfolding_all decide)
     (by with_unfolding_all decide) (by with_unfolding_all decide)
     (by with_unfolding_all decide)⟩

/-- Positions of the spec's prohibition scenario: Venus (querent ruler
Mars's partner) applies to conjunction with Mars 3° away, and Saturn
applies to Venus by sextile only 2° from exact. -/
def yesPlanets : Planet → PlanetPosition
  | .sun => mkPos .sun 200 1 .libra 7
  | .moon => mkPos .moon 160 13 .virgo 6
  | .mercury => mkPos .mercury 250 (6/5) .sagittarius 9
  | .venus => mkPos .venus 10 (6/5) .aries 1
  | .mars => mkPos .mars 13 (1/2) .aries 1
  | .jupiter => mkPos .jupiter 130 (1/10) .leo 5
  | .saturn => mkPos .saturn 72 (3/25) .gemini 3
  | .asc => mkPos .asc 15 0 .aries 1
  | .mc => mkPos .mc 285 0 .capricorn 10

/-- The prohibition-scenario chart, aspects and solar analyses computed by
the embedded engine functions. -/
def chartYes : HoraryChart :=
  { planets := yesPlanets,
    aspects := calculate_enhanced_aspects sampleConfig yesPlanets,
    house_rulers := fun h => if h = 1 then some .mars else if h = 7 then some .venus else none,
    ascendant := 15,
    solar_analyses := fun p =>
      analyze_enhanced_solar_condition sampleConfig p (yesPlanets p) (yesPlanets .sun) 0 }

/-- Counterexample for C2: Saturn's applying sextile to Venus is 2° from
exact, closer than the significators' own 3° conjunction, so the
prohibition condition holds (the denial check in isolation returns
denied) — yet the judgment is YES, because the perfection stage runs first
and the favorable direct aspect wins. -/
theorem prohibition_preempted_counterexample :
    ({ planet1 := .venus, planet2 := .saturn, aspect := .sextile, orb := 2,
       applying := true, degrees_to_exact := 2 } : AspectInfo) ∈ chartYes.aspects ∧
    find_applying_aspect chartYes .mars .venus =
      some { aspect := .conjunction, orb := 3, degrees_to_exact := 3 } ∧
    (2 : ℚ) < 3 ∧
    (check_enhanced_denial_conditions sampleConfig chartYes .mars .venus).denied = true ∧
    (apply_enhanced_judgment sampleConfig chartYes 7 false false false false 15).result =
      "YES" ∧
    (apply_enhanced_judgment sampleConfig chartYes 7 false false false false 15).result ≠
      "NO" := by
  with_unfolding_all decide

/-- C2 (amended): prohibition by Saturn yields the terminal NO only when
the perfection stage has found nothing; given a radical chart, valid
significators, no perfection, and a chart-listed applying Saturn aspect to
either significator closer to exact than the significators' own applying
aspect, the denial fires and the verdict is NO.  (When a favorable direct
perfection exists, it runs first and the verdict is YES regardless of
Saturn.) -/
theorem prohibition_after_no_perfection (c : HoraryConfig) (chart : HoraryChart)
    (qh : ℤ) (iv ic ig7 : Bool) (boost : ℚ) (a : AspectInfo) (sa : FoundAspect)
    (hv : (check_enhanced_radicality c chart ig7).valid = true)
    (hs : (identify_significators chart qh).valid = true)
    (hp : (check_enhanced_perfection c chart (identify_significators chart qh).querent
        (identify_significators chart qh).quesited boost).perfects = false)
    (hmem : a ∈ chart.aspects)
    (hsat : a.planet1 = .saturn ∨ a.planet2 = .saturn)
    (happ : a.applying = true)
    (hoth : (if a.planet1 = .saturn then a.planet2 else a.planet1) =
        (identify_significators chart qh).querent ∨
      (if a.planet1 = .saturn then a.planet2 else a.planet1) =
        (identify_significators chart qh).quesited)
    (hfind : find_applying_aspect chart (identify_significators chart qh).querent
        (identify_significators chart qh).quesited = some sa)
    (hlt : a.degrees_to_exact < sa.degrees_to_exact) :
    (check_enhanced_denial_conditions c chart (identify_significators chart qh).querent
      (identify_significators chart qh).quesited).denied = true ∧
    (apply_enhanced_judgment c chart qh false iv ic ig7 boost).result = "NO" := by
  have hpc : (prohibition_check c chart (identify_significators chart qh).querent
      (identify_significators chart qh).quesited a).isSome := by
    unfold prohibition_check
    rw [if_pos ⟨hsat, happ⟩]
    dsimp only
    rw [if_pos hoth, hfind]
    simp only
    rw [if_pos hlt]
    simp
  have hsome : (chart.aspects.findSome? (prohibition_check c chart
      (identify_significators chart qh).querent
      (identify_significators chart qh).quesited)).isSome :=
    findSome?_isSome_of_mem hmem hpc
  obtain ⟨r, hr⟩ := Option.isSome_iff_exists.mp hsome
  have hden : (check_enhanced_denial_conditions c chart
      (identify_significators chart qh).querent
      (identify_significators chart qh).quesited).denied = true := by
    unfold check_enhanced_denial_conditions
    dsimp only
    rw [hr]
    obtain ⟨a2, -, hfa2⟩ := exists_of_findSome?_eq_some hr
    exact (prohibition_check_shape hfa2).1
  refine ⟨hden, ?_⟩
  unfold apply_enhanced_judgment judgment_tail
  simp only [hv, hs, hp, hden]
  simp

/-- Positions for a chart whose significators' direct applying aspect
cannot perfect in sign (Mars leaves Aries first). -/
def prohPlanets : Planet → PlanetPosition
  | .sun => mkPos .sun 200 1 .libra 7
  | .moon => mkPos .moon 160 13 .virgo 6
  | .mercury => mkPos .mercury 250 (6/5) .sagittarius 9
  | .venus => mkPos .venus 24 (6/5) .aries 1
  | .mars => mkPos .mars 27 (1/2) .aries 1
  | .jupiter => mkPos .jupiter 130 (1/10) .leo 5
  | .saturn => mkPos .saturn 85 (3/25) .gemini 3
  | .asc => mkPos .asc 15 0 .aries 1
  | .mc => mkPos .mc 285 0 .capricorn 10

/-- A chart where the significators' applying conjunction does not perfect
in sign while Saturn's applying sextile to Venus sits closer to exact, so
the prohibition denial is actually reached. -/
def chartProh : HoraryChart :=
  { planets := prohPlanets,
    aspects := [
      { planet1 := .venus, planet2 := .mars, aspect := .conjunction, orb := 3,
        applying := true, degrees_to_exact := 5 },
      { planet1 := .venus, planet2 := .saturn, aspect := .sextile, orb := 2,
        applying := true, degrees_to_exact := 2 } ],
    house_rulers := fun h => if h = 1 then some .mars else if h = 7 then some .venus else none,
    ascendant := 15,
    solar_analyses := fun p =>
      analyze_enhanced_solar_condition sampleConfig p (prohPlanets p) (prohPlanets .sun) 0 }

/-- Witness for C2's amended theorem: with no perfection available,
Saturn's closer applying aspect to Venus makes the denial fire and the
verdict NO. -/
theorem prohibition_after_no_perfection_witness :
    ((check_enhanced_radicality sampleConfig chartProh false).valid = true ∧
     (identify_significators chartProh 7).valid = true ∧
     (check_enhanced_perfection sampleConfig chartProh
       (identify_significators chartProh 7).querent
       (identify_significators chartProh 7).quesited 15).perfects = false ∧
     ({ planet1 := .venus, planet2 := .saturn, aspect := .sextile, orb := 2,
        applying := true, degrees_to_exact := 2 } : AspectInfo) ∈ chartProh.aspects ∧
     find_applying_aspect chartProh (identify_significators chartProh 7).querent
       (identify_significators chartProh 7).quesited =
       some { aspect := .conjunction, orb := 3, degrees_to_exact := 5 }) ∧
    ((check_enhanced_denial_conditions sampleConfig chartProh
       (identify_significators chartProh 7).querent
       (identify_significators chartProh 7).quesited).denied = true ∧
     (apply_enhanced_judgment sampleConfig chartProh 7 false false false false 15).result =
       "NO") :=
  ⟨by with_unfolding_all decide,
   prohibition_after_no_perfection sampleConfig chartProh 7 false false false 15
     { planet1 := .venus, planet2 := .saturn, aspect := .sextile, orb := 2,
       applying := true, degrees_to_exact := 2 }
     { aspect := .conjunction, orb := 3, degrees_to_exact := 5 }
     (by with_unfolding_all decide) (by with_unfolding_all decide)
     (by with_unfolding_all decide) (by with_unfolding_all decide)
     (by with_unfolding_all decide) (by with_unfolding_all decide)
     (by with_unfolding_all decide) (by with_unfolding_all decide)
     (by with_unfolding_all decide)⟩

/-- Positions where Jupiter is separating from Mars (past its square... the
trine leg) while applying toward Venus, with no aspect between the
significators. -/
def sepPlanets : Planet → PlanetPosition
  | .sun => mkPos .sun 200 1 .libra 7
  | .moon => mkPos .moon 160 13 .virgo 6
  | .mercury => mkPos .mercury 250 (6/5) .sagittarius 9
  | .venus => mkPos .venus 172 (6/5) .virgo 6
  | .mars => mkPos .mars 13 (1/2) .aries 1
  | .jupiter => mkPos .jupiter 107 (1/10) .cancer 4
  | .saturn => mkPos .saturn 320 (3/25) .aquarius 11
  | .asc => mkPos .asc 15 0 .aries 1
  | .mc => mkPos .mc 285 0 .capricorn 10

/-- A chart (aspects computed by the embedded engine) where Jupiter is
separating from Venus by sextile and applying to Mars by square — the
claim's translation pattern — yet no translation is found. -/
def chartSep : HoraryChart :=
  { planets := sepPlanets,
    aspects := calculate_enhanced_aspects sampleConfig sepPlanets,
    house_rulers := fun h => if h = 1 then some .mars else if h = 7 then some .venus else none,
    ascendant := 15,
    solar_analyses := fun p =>
      analyze_enhanced_solar_condition sampleConfig p (sepPlanets p) (sepPlanets .sun) 0 }

/-- Counterexample for C5: Jupiter separates from the quesited ruler Venus
(the separation-order check confirms it, and the chart lists their
in-orb sextile as not applying) and applies to the querent ruler Mars with
fewer degrees to exact — the separate-then-apply pattern — and there is no
direct perfection; yet the translation search finds nothing, because the
code demands chart-listed applying aspects to both significators. -/
theorem translation_missed_counterexample :
    check_aspect_separation_order (chartSep.planets .venus).longitude
      (chartSep.planets .venus).speed (chartSep.planets .jupiter).longitude
      (chartSep.planets .jupiter).speed (Aspect.degrees .sextile) = true ∧
    ({ planet1 := .venus, planet2 := .jupiter, aspect := .sextile, orb := 5,
       applying := false, degrees_to_exact := 5 } : AspectInfo) ∈ chartSep.aspects ∧
    find_applying_aspect chartSep .jupiter .mars =
      some { aspect := .square, orb := 4, degrees_to_exact := 4 } ∧
    (4 : ℚ) < 5 ∧
    find_applying_aspect chartSep .mars .venus = none ∧
    (check_enhanced_translation_of_light sampleConfig chartSep .mars .venus).found = false ∧
    (check_enhanced_perfection sampleConfig chartSep .mars .venus 15).perfects = false := by
  with_unfolding_all decide

/-- C5 (amended): the translation search succeeds only when the configured
speed-advantage prerequisite is disabled and some third body has
chart-listed applying aspects to BOTH significators, with (under the
proper-sequence toggle) the separation-order check marking the leg to one
significator as separating while the aspect to the other is closer to
exact; then, when no direct applying aspect joins the significators,
perfection is decided by translation with favorable outcome. -/
theorem translation_found_conditions (c : HoraryConfig) (chart : HoraryChart)
    (querent quesited p : Planet) (aq ad : FoundAspect) (boost : ℚ)
    (hspd : c.moon.translation.require_speed_advantage = false)
    (hseq : c.moon.translation.require_proper_sequence = true)
    (hmem : p ∈ chartPlanetOrder)
    (hnq : ¬ (p = querent ∨ p = quesited))
    (haq : find_applying_aspect chart p querent = some aq)
    (had : find_applying_aspect chart p quesited = some ad)
    (hsep : check_aspect_separation_order (chart.planets querent).longitude
      (chart.planets querent).speed (chart.planets p).longitude
      (chart.planets p).speed aq.aspect.degrees = true)
    (hord : ad.degrees_to_exact < aq.degrees_to_exact)
    (hdir : find_applying_aspect chart querent quesited = none) :
    (check_enhanced_translation_of_light c chart querent quesited).found = true ∧
    (check_enhanced_perfection c chart querent quesited boost).perfects = true ∧
    (check_enhanced_perfection c chart querent quesited boost).type = "translation" ∧
    (check_enhanced_perfection c chart querent quesited boost).favorable = true := by
  have hcand : (translation_candidate c chart querent quesited p).isSome := by
    unfold translation_candidate
    rw [if_neg hnq, haq, had]
    simp only
    rw [hseq]
    simp only [ite_true, if_true]
    rw [if_pos ⟨hsep, hord⟩]
    simp
  have hf : (chartPlanetOrder.findSome? (translation_candidate c chart querent
      quesited)).isSome := findSome?_isSome_of_mem hmem hcand
  obtain ⟨v, hv⟩ := Option.isSome_iff_exists.mp hf
  have htr : (check_enhanced_translation_of_light c chart querent quesited).found = true := by
    unfold check_enhanced_translation_of_light
    rw [if_pos (by simp [hspd]), hv]
  have hfav : (check_enhanced_translation_of_light c chart querent quesited).favorable =
      true := by
    unfold check_enhanced_translation_of_light
    rw [if_pos (by simp [hspd]), hv]
  have hdp : direct_perfection c chart querent quesited boost = none := by
    unfold direct_perfection
    rw [hdir]
  refine ⟨htr, ?_, ?_, ?_⟩ <;>
    (unfold check_enhanced_perfection
     rw [hdp]
     dsimp only
     simp [htr, hfav])

/-- Positions for C5's amended-theorem witness. -/
def transPlanets : Planet → PlanetPosition
  | .sun => mkPos .sun 200 1 .libra 7
  | .moon => mkPos .moon 160 13 .virgo 6
  | .mercury => mkPos .mercury 250 (6/5) .sagittarius 9
  | .venus => mkPos .venus 100 (6/5) .cancer 4
  | .mars => mkPos .mars 13 (1/2) .aries 1
  | .jupiter => mkPos .jupiter 130 (1/10) .leo 5
  | .saturn => mkPos .saturn 320 (3/25) .aquarius 11
  | .asc => mkPos .asc 15 0 .aries 1
  | .mc => mkPos .mc 285 0 .capricorn 10

/-- A chart in which Jupiter has chart-listed applying aspects to both
significators, the separation-order check marks the Mars leg separating,
and the Venus leg is closer to exact — the code's translation pattern. -/
def chartTrans : HoraryChart :=
  { planets := transPlanets,
    aspects := [
      { planet1 := .jupiter, planet2 := .mars, aspect := .trine, orb := 3,
        applying := true, degrees_to_exact := 3 },
      { planet1 := .jupiter, planet2 := .venus, aspect := .sextile, orb := 2,
        applying := true, degrees_to_exact := 2 } ],
    house_rulers := fun h => if h = 1 then some .mars else if h = 7 then some .venus else none,
    ascendant := 15,
    solar_analyses := fun p =>
      analyze_enhanced_solar_condition sampleConfig p (transPlanets p) (transPlanets .sun) 0 }

/-- Witness for C5's amended theorem: Jupiter translates the light between
Mars and Venus and perfection is decided by it. -/
theorem translation_found_conditions_witness :
    (sampleConfig.moon.translation.require_speed_advantage = false ∧
     sampleConfig.moon.translation.require_proper_sequence = true ∧
     (Planet.jupiter ∈ chartPlanetOrder) ∧
     find_applying_aspect chartTrans .jupiter .mars =
       some { aspect := .trine, orb := 3, degrees_to_exact := 3 } ∧
     find_applying_aspect chartTrans .jupiter .venus =
       some { aspect := .sextile, orb := 2, degrees_to_exact := 2 } ∧
     check_aspect_separation_order (chartTrans.planets .mars).longitude
       (chartTrans.planets .mars).speed (chartTrans.planets .jupiter).longitude
       (chartTrans.planets .jupiter).speed
       (FoundAspect.aspect { aspect := .trine, orb := 3, degrees_to_exact := 3 }).degrees =
       true ∧
     find_applying_aspect chartTrans .mars .venus = none) ∧
    ((check_enhanced_translation_of_light sampleConfig chartTrans .mars .venus).found = true ∧
     (check_enhanced_perfection sampleConfig chartTrans .mars .venus 15).perfects = true ∧
     (check_enhanced_perfection sampleConfig chartTrans .mars .venus 15).type =
       "translation" ∧
     (check_enhanced_perfection sampleConfig chartTrans .mars .venus 15).favorable = true) :=
  ⟨by with_unfolding_all decide,
   translation_found_conditions sampleConfig chartTrans .mars .venus .jupiter
     { aspect := .trine, orb := 3, degrees_to_exact := 3 }
     { aspect := .sextile, orb := 2, degrees_to_exact := 2 } 15
     (by with_unfolding_all decide) (by with_unfolding_all decide)
     (by with_unfolding_all decide) (by with_unfolding_all decide)
     (by with_unfolding_all decide) (by with_unfolding_all decide)
     (by with_unfolding_all decide) (by with_unfolding_all decide)
     (by with_unfolding_all decide)⟩

end Horary
